import Mathlib

/-!
# Verification of the compliance-advisor multi-tenant sync pipeline

Shallow embedding of the repository's core pipeline (shared/sql_client.py,
shared/graph_client.py, shared/auth.py, functions/activities/*,
functions/orchestrator/__init__.py) and proofs of the frozen claims.

Python dict values are modelled by `Val`; Python `float` arithmetic is
modelled exactly over `ℚ` (no claim depends on floating-point rounding).
-/

namespace ComplianceAdvisor

/-- A Python value as they occur in this pipeline's dicts: `None`, strings,
numbers (int/float modelled over ℚ), booleans, lists and dicts. -/
inductive Val where
  | null
  | str (s : String)
  | num (q : ℚ)
  | bool (b : Bool)
  | arr (xs : List Val)
  | obj (fields : List (String × Val))
  deriving Repr

mutual

/-- Structural equality test on `Val` (Python `==` on these values). -/
def Val.beq : Val → Val → Bool
  | .null, .null => true
  | .str a, .str b => a == b
  | .num a, .num b => a == b
  | .bool a, .bool b => a == b
  | .arr xs, .arr ys => Val.beqList xs ys
  | .obj xs, .obj ys => Val.beqFields xs ys
  | _, _ => false

def Val.beqList : List Val → List Val → Bool
  | [], [] => true
  | a :: as, b :: bs => Val.beq a b && Val.beqList as bs
  | _, _ => false

def Val.beqFields : List (String × Val) → List (String × Val) → Bool
  | [], [] => true
  | (k1, v1) :: as, (k2, v2) :: bs =>
      k1 == k2 && Val.beq v1 v2 && Val.beqFields as bs
  | _, _ => false

end

instance : BEq Val := ⟨Val.beq⟩

mutual

theorem Val.beq_iff : ∀ a b : Val, Val.beq a b = true ↔ a = b
  | .null, .null => by simp [Val.beq]
  | .str a, .str b => by simp [Val.beq]
  | .num a, .num b => by simp [Val.beq]
  | .bool a, .bool b => by simp [Val.beq]
  | .arr xs, .arr ys => by
      simp only [Val.beq, Val.beqList_iff xs ys, Val.arr.injEq]
  | .obj xs, .obj ys => by
      simp only [Val.beq, Val.beqFields_iff xs ys, Val.obj.injEq]
  | .null, .str _ | .null, .num _ | .null, .bool _ | .null, .arr _
  | .null, .obj _ | .str _, .null | .str _, .num _ | .str _, .bool _
  | .str _, .arr _ | .str _, .obj _ | .num _, .null | .num _, .str _
  | .num _, .bool _ | .num _, .arr _ | .num _, .obj _ | .bool _, .null
  | .bool _, .str _ | .bool _, .num _ | .bool _, .arr _ | .bool _, .obj _
  | .arr _, .null | .arr _, .str _ | .arr _, .num _ | .arr _, .bool _
  | .arr _, .obj _ | .obj _, .null | .obj _, .str _ | .obj _, .num _
  | .obj _, .bool _ | .obj _, .arr _ => by simp [Val.beq]

theorem Val.beqList_iff : ∀ xs ys : List Val, Val.beqList xs ys = true ↔ xs = ys
  | [], [] => by simp [Val.beqList]
  | a :: as, b :: bs => by
      simp [Val.beqList, Val.beq_iff a b, Val.beqList_iff as bs]
  | [], _ :: _ => by simp [Val.beqList]
  | _ :: _, [] => by simp [Val.beqList]

theorem Val.beqFields_iff :
    ∀ xs ys : List (String × Val), Val.beqFields xs ys = true ↔ xs = ys
  | [], [] => by simp [Val.beqFields]
  | (k1, v1) :: as, (k2, v2) :: bs => by
      simp [Val.beqFields, Val.beq_iff v1 v2, Val.beqFields_iff as bs,
        and_assoc]
  | [], _ :: _ => by simp [Val.beqFields]
  | _ :: _, [] => by simp [Val.beqFields]

end

instance : DecidableEq Val :=
  fun a b => decidable_of_iff (Val.beq a b = true) (Val.beq_iff a b)

/-- A Python dict with string keys (the only kind this pipeline uses). -/
abbrev Dict := List (String × Val)

namespace Dict

/-- `d[k]` lookup: first binding wins (our dict literals never repeat keys). -/
def get? (d : Dict) (k : String) : Option Val :=
  match d.find? (fun kv => kv.1 == k) with
  | some kv => some kv.2
  | none => none

end Dict

/-- Python `d.get(k)`: the stored value (possibly `None`) when the key is
present, `None` when absent. -/
def pyGet (d : Dict) (k : String) : Val :=
  (d.get? k).getD .null

/-- Python `d.get(k, default)`: the stored value (possibly `None`) when the
key is present, `default` only when the key is absent. -/
def pyGetD (d : Dict) (k : String) (default : Val) : Val :=
  (d.get? k).getD default

/-- Python truthiness for the values this pipeline branches on. -/
def Val.truthy : Val → Bool
  | .null => false
  | .str s => !(s == "")
  | .num q => !(q == 0)
  | .bool b => b
  | .arr xs => !xs.isEmpty
  | .obj fields => !fields.isEmpty

/-! ## Data Normalizer (src/functions/activities/collect_compliance_data.py) -/

/-- `_normalize_assessment` from collect_compliance_data.py: map assessment
dict keys (SDK snake_case or raw-HTTP camelCase) to the camelCase keys that
sql_client.upsert_assessment expects. -/
def normalize_assessment (a : Dict) : Dict :=
  [ ("id",                   pyGet a "id"),
    ("displayName",          pyGetD a "displayName" (pyGetD a "display_name" (.str ""))),
    ("description",          pyGet a "description"),
    ("status",               pyGet a "status"),
    ("regulation",           pyGet a "regulation"),
    ("regulationName",       pyGetD a "regulationName" (pyGet a "regulation_name")),
    ("complianceStandard",   pyGetD a "complianceStandard" (pyGet a "compliance_standard")),
    ("complianceScore",      pyGetD a "complianceScore" (pyGet a "compliance_score")),
    ("passedControls",       pyGetD a "passedControls" (pyGet a "passed_controls")),
    ("failedControls",       pyGetD a "failedControls" (pyGet a "failed_controls")),
    ("totalControls",        pyGetD a "totalControls" (pyGet a "total_controls")),
    ("createdDateTime",      pyGetD a "createdDateTime" (pyGet a "created_date_time")),
    ("lastModifiedDateTime", pyGetD a "lastModifiedDateTime"
                               (pyGet a "last_modified_date_time")) ]

/-- `_normalize_control` from collect_compliance_data.py: map control dict
keys to the camelCase keys that sql_client expects. -/
def normalize_control (c : Dict) : Dict :=
  [ ("id",                   pyGet c "id"),
    ("displayName",          pyGetD c "displayName" (pyGetD c "display_name"
                               (pyGetD c "controlName" (pyGetD c "control_name" (.str ""))))),
    ("controlFamily",        pyGetD c "controlFamily" (pyGet c "control_family")),
    ("controlCategory",      pyGetD c "controlCategory" (pyGet c "control_category")),
    ("implementationStatus", pyGetD c "implementationStatus"
                               (pyGet c "implementation_status")),
    ("testStatus",           pyGetD c "testStatus" (pyGet c "test_status")),
    ("score",                pyGet c "score"),
    ("maxScore",             pyGetD c "maxScore" (pyGet c "max_score")),
    ("scoreImpact",          pyGetD c "scoreImpact" (pyGet c "score_impact")),
    ("owner",                pyGet c "owner"),
    ("actionUrl",            pyGetD c "actionUrl" (pyGet c "action_url")),
    ("implementationDetails", pyGetD c "implementationDetails"
                               (pyGet c "implementation_details")),
    ("testPlan",             pyGetD c "testPlan" (pyGet c "test_plan")),
    ("managementResponse",   pyGetD c "managementResponse"
                               (pyGet c "management_response")),
    ("evidenceOfCompletion", pyGetD c "evidenceOfCompletion"
                               (pyGet c "evidence_of_completion")),
    ("service",              pyGet c "service") ]

/-- Resolution of one canonical field through an ordered chain of source
key spellings, as the nested `d.get(k1, d.get(k2, ...))` calls do: the
value of the first PRESENT spelling wins (even if that value is `None`);
the default applies only when no spelling is present. -/
def chainGet (d : Dict) (chain : List String) (default : Val) : Val :=
  match chain with
  | [] => default
  | k :: rest =>
    match d.get? k with
    | some v => v
    | none => chainGet d rest default

/-- Canonical keys of a normalized assessment with the source-spelling
chain and default for each (from `_normalize_assessment`). -/
def assessmentFieldSpec : List (String × List String × Val) :=
  [ ("id",                   ["id"], .null),
    ("displayName",          ["displayName", "display_name"], .str ""),
    ("description",          ["description"], .null),
    ("status",               ["status"], .null),
    ("regulation",           ["regulation"], .null),
    ("regulationName",       ["regulationName", "regulation_name"], .null),
    ("complianceStandard",   ["complianceStandard", "compliance_standard"], .null),
    ("complianceScore",      ["complianceScore", "compliance_score"], .null),
    ("passedControls",       ["passedControls", "passed_controls"], .null),
    ("failedControls",       ["failedControls", "failed_controls"], .null),
    ("totalControls",        ["totalControls", "total_controls"], .null),
    ("createdDateTime",      ["createdDateTime", "created_date_time"], .null),
    ("lastModifiedDateTime", ["lastModifiedDateTime", "last_modified_date_time"], .null) ]

/-- Canonical keys of a normalized control with the source-spelling chain
and default for each (from `_normalize_control`). -/
def controlFieldSpec : List (String × List String × Val) :=
  [ ("id",                   ["id"], .null),
    ("displayName",          ["displayName", "display_name", "controlName",
                              "control_name"], .str ""),
    ("controlFamily",        ["controlFamily", "control_family"], .null),
    ("controlCategory",      ["controlCategory", "control_category"], .null),
    ("implementationStatus", ["implementationStatus", "implementation_status"], .null),
    ("testStatus",           ["testStatus", "test_status"], .null),
    ("score",                ["score"], .null),
    ("maxScore",             ["maxScore", "max_score"], .null),
    ("scoreImpact",          ["scoreImpact", "score_impact"], .null),
    ("owner",                ["owner"], .null),
    ("actionUrl",            ["actionUrl", "action_url"], .null),
    ("implementationDetails", ["implementationDetails", "implementation_details"], .null),
    ("testPlan",             ["testPlan", "test_plan"], .null),
    ("managementResponse",   ["managementResponse", "management_response"], .null),
    ("evidenceOfCompletion", ["evidenceOfCompletion", "evidence_of_completion"], .null),
    ("service",              ["service"], .null) ]

/-! ## Store model (tables written by src/shared/sql_client.py)

Row structures mirror the column lists of the MERGE statements.  Values
are `Val` (the Python arguments are passed unchecked to parameterized
SQL).  `SYSUTCDATETIME()` is modelled by the ambient clock `Store.now`;
`json.dumps(score)` is modelled by storing the dict value itself. -/

structure SecureScoreRow where
  tenant_id : Val
  snapshot_date : String
  current_score : Val
  max_score : Val
  licensed_users : Val
  active_users : Val
  raw_json : Dict
  deriving DecidableEq, Repr

structure ControlScoreRow where
  tenant_id : Val
  snapshot_date : String
  control_name : Val
  control_category : Val
  score : Val
  max_score : Val
  description : Val
  deriving DecidableEq, Repr

structure BenchmarkRow where
  tenant_id : Val
  snapshot_date : String
  basis : Val
  basis_value : Val
  average_score : Val
  deriving DecidableEq, Repr

structure ControlProfileRow where
  tenant_id : Val
  control_name : Val
  title : Val
  control_category : Val
  max_score : Val
  rank : Val
  action_type : Val
  service : Val
  tier : Val
  deprecated : Val
  control_state : Val
  assigned_to : Val
  remediation_url : Val
  updated_at : Val
  deriving DecidableEq, Repr

structure TenantRow where
  tenant_id : String
  display_name : Val
  region : Val
  department : Val
  department_head : Val
  risk_tier : Val
  app_id : Val
  kv_secret_name : Val
  is_active : Bool
  last_synced_at : Val
  deriving DecidableEq, Repr

structure ComplianceScoreRow where
  tenant_id : Val
  snapshot_date : String
  current_score : Val
  max_score : Val
  category : Val
  deriving DecidableEq, Repr

structure AssessmentRow where
  tenant_id : Val
  assessment_id : Val
  display_name : Val
  description : Val
  status : Val
  regulation : Val
  compliance_score : Val
  passed_controls : Val
  failed_controls : Val
  total_controls : Val
  created_date : Val
  last_modified : Val
  synced_at : Val
  deriving DecidableEq, Repr

structure AssessmentControlRow where
  tenant_id : Val
  assessment_id : Val
  control_id : Val
  control_name : Val
  control_family : Val
  control_category : Val
  implementation_status : Val
  test_status : Val
  score : Val
  max_score : Val
  score_impact : Val
  owner : Val
  action_url : Val
  implementation_details : Val
  test_plan : Val
  management_response : Val
  evidence_of_completion : Val
  service : Val
  synced_at : Val
  deriving DecidableEq, Repr

structure Store where
  now : String
  tenants : List TenantRow
  secure_scores : List SecureScoreRow
  control_scores : List ControlScoreRow
  benchmark_scores : List BenchmarkRow
  control_profiles : List ControlProfileRow
  compliance_scores : List ComplianceScoreRow
  assessments : List AssessmentRow
  assessment_controls : List AssessmentControlRow
  deriving Repr

/-- MERGE semantics: when some target row hits the single source row,
update every matching row; otherwise insert the new row. -/
def mergeRows {ρ : Type} (rows : List ρ) (hits : ρ → Bool)
    (update : ρ → ρ) (newRow : ρ) : List ρ :=
  if rows.any hits then
    rows.map (fun r => if hits r then update r else r)
  else
    rows ++ [newRow]

/-! ## sql_client.py upserts -/

/-- `upsert_secure_score`: `score["createdDateTime"][:10]` raises `KeyError`
when the key is absent (and `TypeError` when its value is not sliceable);
then MERGE into `secure_scores` on (tenant_id, snapshot_date). -/
def upsert_secure_score (db : Store) (tenant_id : Val) (score : Dict) :
    Except String Store :=
  match score.get? "createdDateTime" with
  | none => .error "KeyError: 'createdDateTime'"
  | some (.str s) =>
    let snapshot_date := s.take 10
    let hits := fun (r : SecureScoreRow) =>
      r.tenant_id == tenant_id && r.snapshot_date == snapshot_date
    let rows := mergeRows db.secure_scores hits
      (fun r => { r with
        current_score := pyGet score "currentScore",
        max_score := pyGet score "maxScore",
        licensed_users := pyGet score "licensedUserCount",
        active_users := pyGet score "activeUserCount",
        raw_json := score })
      { tenant_id := tenant_id, snapshot_date := snapshot_date,
        current_score := pyGet score "currentScore",
        max_score := pyGet score "maxScore",
        licensed_users := pyGet score "licensedUserCount",
        active_users := pyGet score "activeUserCount",
        raw_json := score }
    .ok { db with secure_scores := rows }
  | some _ => .error "TypeError: 'createdDateTime' value is not sliceable"

/-- One `control_scores` MERGE (loop body of `upsert_control_scores`),
keyed on (tenant_id, snapshot_date, control_name). -/
def mergeControlScore (rows : List ControlScoreRow) (tenant_id : Val)
    (snapshot_date : String) (ctrl : Dict) : List ControlScoreRow :=
  let hits := fun (r : ControlScoreRow) =>
    r.tenant_id == tenant_id && r.snapshot_date == snapshot_date &&
      r.control_name == pyGet ctrl "controlName"
  mergeRows rows hits
    (fun r => { r with
      score := pyGet ctrl "score",
      max_score := pyGet ctrl "maxScore",
      description := pyGet ctrl "description" })
    { tenant_id := tenant_id, snapshot_date := snapshot_date,
      control_name := pyGet ctrl "controlName",
      control_category := pyGet ctrl "controlCategory",
      score := pyGet ctrl "score",
      max_score := pyGet ctrl "maxScore",
      description := pyGet ctrl "description" }

/-- `upsert_control_scores`: iterate the `controls` value (`for ctrl in
controls: ctrl.get(...)`).  Iterating a non-list or a list holding a
non-dict raises (TypeError/AttributeError). -/
def upsert_control_scores (db : Store) (tenant_id : Val)
    (snapshot_date : String) (controls : Val) : Except String Store :=
  match controls with
  | .arr items => do
    let rows ← items.foldlM (fun rows item =>
      match item with
      | .obj ctrl => .ok (mergeControlScore rows tenant_id snapshot_date ctrl)
      | _ => .error "AttributeError: item has no attribute get")
      db.control_scores
    .ok { db with control_scores := rows }
  | _ => .error "TypeError: controls is not iterable"

/-- One `benchmark_scores` MERGE (loop body of `upsert_benchmarks`),
keyed on (tenant_id, snapshot_date, basis, basis_value). -/
def mergeBenchmark (rows : List BenchmarkRow) (tenant_id : Val)
    (snapshot_date : String) (b : Dict) : List BenchmarkRow :=
  let hits := fun (r : BenchmarkRow) =>
    r.tenant_id == tenant_id && r.snapshot_date == snapshot_date &&
      r.basis == pyGet b "basis" && r.basis_value == pyGet b "basisValue"
  mergeRows rows hits
    (fun r => { r with average_score := pyGet b "averageScore" })
    { tenant_id := tenant_id, snapshot_date := snapshot_date,
      basis := pyGet b "basis", basis_value := pyGet b "basisValue",
      average_score := pyGet b "averageScore" }

/-- `upsert_benchmarks`: iterate the `benchmarks` value. -/
def upsert_benchmarks (db : Store) (tenant_id : Val)
    (snapshot_date : String) (benchmarks : Val) : Except String Store :=
  match benchmarks with
  | .arr items => do
    let rows ← items.foldlM (fun rows item =>
      match item with
      | .obj b => .ok (mergeBenchmark rows tenant_id snapshot_date b)
      | _ => .error "AttributeError: item has no attribute get")
      db.benchmark_scores
    .ok { db with benchmark_scores := rows }
  | _ => .error "TypeError: benchmarks is not iterable"

/-- `state_updates = p.get("controlStateUpdates") or []`, then the *last*
element's `state`/`assignedTo` when the list is non-empty, else `None`. -/
def profileStateFields (p : Dict) : Except String (Val × Val) :=
  let raw := pyGet p "controlStateUpdates"
  let state_updates := if raw.truthy then raw else .arr []
  if state_updates.truthy then
    match state_updates with
    | .arr items =>
      match items.getLast? with
      | some (.obj d) => .ok (pyGet d "state", pyGet d "assignedTo")
      | _ => .error "AttributeError: item has no attribute get"
    | _ => .error "TypeError: controlStateUpdates is not subscriptable"
  else
    .ok (.null, .null)

/-- One `control_profiles` MERGE (loop body of `upsert_control_profiles`),
keyed on (tenant_id, control_name); `updated_at` refreshed on update. -/
def mergeControlProfile (db : Store) (rows : List ControlProfileRow)
    (tenant_id : Val) (p : Dict) : Except String (List ControlProfileRow) := do
  let (latest_state, assigned_to) ← profileStateFields p
  let hits := fun (r : ControlProfileRow) =>
    r.tenant_id == tenant_id && r.control_name == pyGet p "id"
  .ok (mergeRows rows hits
    (fun r => { r with
      title := pyGet p "title",
      control_category := pyGet p "controlCategory",
      max_score := pyGet p "maxScore",
      rank := pyGet p "rank",
      action_type := pyGet p "actionType",
      service := pyGet p "service",
      tier := pyGet p "tier",
      deprecated := if (pyGet p "deprecated").truthy then .num 1 else .num 0,
      control_state := latest_state,
      assigned_to := assigned_to,
      remediation_url := pyGet p "remediationImpact",
      updated_at := .str db.now })
    { tenant_id := tenant_id,
      control_name := pyGet p "id",
      title := pyGet p "title",
      control_category := pyGet p "controlCategory",
      max_score := pyGet p "maxScore",
      rank := pyGet p "rank",
      action_type := pyGet p "actionType",
      service := pyGet p "service",
      tier := pyGet p "tier",
      deprecated := if (pyGet p "deprecated").truthy then .num 1 else .num 0,
      control_state := latest_state,
      assigned_to := assigned_to,
      remediation_url := pyGet p "remediationImpact",
      updated_at := .null })

/-- `upsert_control_profiles`: loop over the profile dicts. -/
def upsert_control_profiles (db : Store) (tenant_id : Val)
    (profiles : List Dict) : Except String Store := do
  let rows ← profiles.foldlM
    (fun rows p => mergeControlProfile db rows tenant_id p)
    db.control_profiles
  .ok { db with control_profiles := rows }

/-- `mark_tenant_synced`: `UPDATE tenants SET last_synced_at =
SYSUTCDATETIME() WHERE tenant_id = ?`. -/
def mark_tenant_synced (db : Store) (tenant_id : Val) : Store :=
  { db with tenants := db.tenants.map (fun t =>
      if Val.str t.tenant_id == tenant_id
      then { t with last_synced_at := .str db.now } else t) }

/-- One result row of `get_active_tenants` as `dict(zip(cols, row))`. -/
def tenantRowDict (t : TenantRow) : Dict :=
  [ ("tenant_id", Val.str t.tenant_id),
    ("display_name", t.display_name),
    ("region", t.region),
    ("department", t.department),
    ("department_head", t.department_head),
    ("risk_tier", t.risk_tier),
    ("app_id", t.app_id),
    ("kv_secret_name", t.kv_secret_name) ]

/-- `get_active_tenants`: `SELECT tenant_id, display_name, region,
department, department_head, risk_tier, app_id, kv_secret_name FROM
tenants WHERE is_active = 1`, each row as a dict. -/
def get_active_tenants (db : Store) : List Dict :=
  (db.tenants.filter (fun t => t.is_active)).map tenantRowDict

/-- `upsert_compliance_score`: MERGE into `compliance_scores` on
(tenant_id, snapshot_date, category); scores overwritten on match. -/
def upsert_compliance_score (db : Store) (tenant_id : Val)
    (snapshot_date : String) (current_score max_score : Val)
    (category : Val) : Store :=
  let hits := fun (r : ComplianceScoreRow) =>
    r.tenant_id == tenant_id && r.snapshot_date == snapshot_date &&
      r.category == category
  let rows := mergeRows db.compliance_scores hits
    (fun r => { r with
      current_score := current_score, max_score := max_score })
    { tenant_id := tenant_id, snapshot_date := snapshot_date,
      current_score := current_score, max_score := max_score,
      category := category }
  { db with compliance_scores := rows }

/-- `_extract_regulation`: `regulation` or `regulationName` (first truthy),
else the nested `complianceStandard` dict's `name`, else `None`. -/
def extract_regulation (assessment : Dict) : Val :=
  let reg0 := pyGet assessment "regulation"
  let reg := if reg0.truthy then reg0 else pyGet assessment "regulationName"
  if reg.truthy then reg
  else
    match pyGet assessment "complianceStandard" with
    | .obj standard => pyGet standard "name"
    | _ => .null

/-- `upsert_assessment`: MERGE into `assessments` on
(tenant_id, assessment_id); `synced_at` refreshed on update. -/
def upsert_assessment (db : Store) (tenant_id : Val) (assessment : Dict) :
    Store :=
  let hits := fun (r : AssessmentRow) =>
    r.tenant_id == tenant_id && r.assessment_id == pyGet assessment "id"
  let rows := mergeRows db.assessments hits
      (fun r => { r with
        display_name := pyGetD assessment "displayName" (.str ""),
        description := pyGet assessment "description",
        status := pyGet assessment "status",
        regulation := extract_regulation assessment,
        compliance_score := pyGet assessment "complianceScore",
        passed_controls := pyGet assessment "passedControls",
        failed_controls := pyGet assessment "failedControls",
        total_controls := pyGet assessment "totalControls",
        last_modified := pyGet assessment "lastModifiedDateTime",
        synced_at := .str db.now })
      { tenant_id := tenant_id,
        assessment_id := pyGet assessment "id",
        display_name := pyGetD assessment "displayName" (.str ""),
        description := pyGet assessment "description",
        status := pyGet assessment "status",
        regulation := extract_regulation assessment,
        compliance_score := pyGet assessment "complianceScore",
        passed_controls := pyGet assessment "passedControls",
        failed_controls := pyGet assessment "failedControls",
        total_controls := pyGet assessment "totalControls",
        created_date := pyGet assessment "createdDateTime",
        last_modified := pyGet assessment "lastModifiedDateTime",
        synced_at := .null }
  { db with assessments := rows }

/-- `upsert_assessment_control`: MERGE into `assessment_controls` on
(tenant_id, assessment_id, control_id); `synced_at` refreshed on update. -/
def upsert_assessment_control (db : Store) (tenant_id : Val)
    (assessment_id : Val) (control : Dict) : Store :=
  let hits := fun (r : AssessmentControlRow) =>
    r.tenant_id == tenant_id && r.assessment_id == assessment_id &&
      r.control_id == pyGet control "id"
  let rows := mergeRows db.assessment_controls hits
      (fun r => { r with
        control_name := pyGetD control "displayName"
          (pyGetD control "controlName" (.str "")),
        control_family := pyGet control "controlFamily",
        control_category := pyGet control "controlCategory",
        implementation_status := pyGet control "implementationStatus",
        test_status := pyGet control "testStatus",
        score := pyGet control "score",
        max_score := pyGet control "maxScore",
        score_impact := pyGet control "scoreImpact",
        owner := pyGet control "owner",
        action_url := pyGet control "actionUrl",
        implementation_details := pyGet control "implementationDetails",
        test_plan := pyGet control "testPlan",
        management_response := pyGet control "managementResponse",
        evidence_of_completion := pyGet control "evidenceOfCompletion",
        service := pyGet control "service",
        synced_at := .str db.now })
      { tenant_id := tenant_id, assessment_id := assessment_id,
        control_id := pyGet control "id",
        control_name := pyGetD control "displayName"
          (pyGetD control "controlName" (.str "")),
        control_family := pyGet control "controlFamily",
        control_category := pyGet control "controlCategory",
        implementation_status := pyGet control "implementationStatus",
        test_status := pyGet control "testStatus",
        score := pyGet control "score",
        max_score := pyGet control "maxScore",
        score_impact := pyGet control "scoreImpact",
        owner := pyGet control "owner",
        action_url := pyGet control "actionUrl",
        implementation_details := pyGet control "implementationDetails",
        test_plan := pyGet control "testPlan",
        management_response := pyGet control "managementResponse",
        evidence_of_completion := pyGet control "evidenceOfCompletion",
        service := pyGet control "service",
        synced_at := .null }
  { db with assessment_controls := rows }

/-! ## External API client (src/shared/graph_client.py)

The HTTP transport is abstracted: each endpoint call is given the outcome
the network would produce (a value, or an HTTP error with a status code),
and the client functions are modelled on those outcomes. -/

/-- A `requests.HTTPError` carrying the response status code. -/
structure HTTPError where
  status : Nat
  deriving DecidableEq, Repr

/-- Retry policy configuration, mirroring the `urllib3.util.retry.Retry`
constructor arguments in `_session()`. -/
structure RetryOptions where
  total : Nat
  backoff_factor : ℚ
  status_forcelist : List Nat
  allowed_methods : List String
  respect_retry_after_header : Bool
  deriving Repr

/-- The `Retry(...)` object mounted on the shared session in `_session()`. -/
def sessionRetry : RetryOptions :=
  { total := 4
  , backoff_factor := 1
  , status_forcelist := [429, 500, 502, 503, 504]
  , allowed_methods := ["GET"]
  , respect_retry_after_header := true }

/-- Modelled from the spec (and urllib3's documented semantics, which are
not part of this repository): `total` is the number of RETRIES allowed
after the initial request; each response whose status is in
`status_forcelist` consumes one retry, and when a further retryable
response arrives with no retries left the request raises; the first
response with a status outside the forcelist is returned to the caller.
`statuses i` is the status code of the `i`-th underlying attempt; the
result is `(finalStatus, attemptsUsed)`. -/
def retryExec (statuses : Nat → Nat) (attempt retriesLeft : Nat) :
    Except HTTPError (Nat × Nat) :=
  let s := statuses attempt
  if s ∈ sessionRetry.status_forcelist then
    match retriesLeft with
    | 0 => .error ⟨s⟩
    | n + 1 => retryExec statuses (attempt + 1) n
  else
    .ok (s, attempt + 1)

/-- Modelled from the spec: one request through the shared session.
Only methods in `allowed_methods` are retried; any other method performs
exactly one underlying attempt and returns its response as-is. -/
def sessionRequest (method : String) (statuses : Nat → Nat) :
    Except HTTPError (Nat × Nat) :=
  if method ∈ sessionRetry.allowed_methods then
    retryExec statuses 0 sessionRetry.total
  else
    .ok (statuses 0, 1)

/-- Modelled from urllib3's documented backoff formula: sleep before the
`n`-th retry is `backoff_factor * 2^(n-1)` seconds (unless overridden by a
`Retry-After` header, which the session is configured to honor). -/
def backoffTime (opts : RetryOptions) (n : Nat) : ℚ :=
  opts.backoff_factor * 2 ^ (n - 1)

/-- `_get` then `resp.raise_for_status()`: a final response with a 4xx/5xx
status raises `HTTPError` even when the retry policy returned it. -/
def http_get (statuses : Nat → Nat) : Except HTTPError Nat := do
  let (s, _) ← sessionRequest "GET" statuses
  if 400 ≤ s then .error ⟨s⟩ else .ok s

/-! ### Raw-HTTP Compliance Manager fallbacks

Each function takes the outcome(s) of its underlying paginated GET(s). -/

/-- `get_compliance_score` (raw HTTP): the endpoint's dict on success;
`None` on a 404; any other `HTTPError` is re-raised. -/
def get_compliance_score (r : Except HTTPError Dict) :
    Except HTTPError (Option Dict) :=
  match r with
  | .ok d => .ok (some d)
  | .error e => if e.status == 404 then .ok none else .error e

/-- `get_compliance_score_breakdown` (raw HTTP): the category list on
success; `[]` on a 404 or 400; any other `HTTPError` is re-raised. -/
def get_compliance_score_breakdown (r : Except HTTPError (List Dict)) :
    Except HTTPError (List Dict) :=
  match r with
  | .ok xs => .ok xs
  | .error e =>
    if e.status == 404 || e.status == 400 then .ok [] else .error e

/-- `get_compliance_assessments` (raw HTTP): try the preferred endpoint;
on a 404 try the alternative endpoint, and on any `HTTPError` there
return `[]`; a non-404 error on the preferred endpoint is re-raised. -/
def get_compliance_assessments
    (preferred alt : Except HTTPError (List Dict)) :
    Except HTTPError (List Dict) :=
  match preferred with
  | .ok xs => .ok xs
  | .error e =>
    if e.status == 404 then
      match alt with
      | .ok xs => .ok xs
      | .error _ => .ok []
    else .error e

/-- `get_assessment_controls` (raw HTTP): same preferred/alternative
pattern as `get_compliance_assessments`. -/
def get_assessment_controls
    (preferred alt : Except HTTPError (List Dict)) :
    Except HTTPError (List Dict) :=
  match preferred with
  | .ok xs => .ok xs
  | .error e =>
    if e.status == 404 then
      match alt with
      | .ok xs => .ok xs
      | .error _ => .ok []
    else .error e

/-! ### SDK-based (preferred) Compliance Manager fetches

Every SDK helper wraps its awaited call in `try/except` and converts ANY
exception into `None`/`[]`; an SDK fetch therefore never raises.  The
argument is the outcome of the underlying awaited SDK call. -/

/-- `get_compliance_score_sdk`: the score dict, or `None` when the
endpoint returned nothing or raised. -/
def get_compliance_score_sdk (r : Except String (Option Dict)) :
    Option Dict :=
  match r with
  | .ok v => v
  | .error _ => none

/-- `get_compliance_score_breakdown_sdk`: the category dicts, or `[]` when
the endpoint returned nothing or raised. -/
def get_compliance_score_breakdown_sdk (r : Except String (List Dict)) :
    List Dict :=
  match r with
  | .ok xs => xs
  | .error _ => []

/-- `get_compliance_assessments_sdk`: the assessment dicts, or `[]` when
the endpoint returned nothing or raised. -/
def get_compliance_assessments_sdk (r : Except String (List Dict)) :
    List Dict :=
  match r with
  | .ok xs => xs
  | .error _ => []

/-- `get_assessment_controls_sdk`: the control dicts for one assessment,
or `[]` when the endpoint returned nothing or raised. -/
def get_assessment_controls_sdk (r : Except String (List Dict)) :
    List Dict :=
  match r with
  | .ok xs => xs
  | .error _ => []

/-- `get_secure_scores`: `days` must be in [1, 90] (`ValueError`
otherwise, before any network call); then all pages of the secure-scores
endpoint.  `pages` is the paginated transport outcome. -/
def MAX_DAYS : Nat := 90

def get_secure_scores (pages : Except HTTPError (List Dict)) (days : Nat) :
    Except String (List Dict) :=
  if !(1 ≤ days && days ≤ MAX_DAYS) then
    .error "ValueError: days must be an integer between 1 and 90"
  else
    match pages with
    | .ok xs => .ok xs
    | .error e => .error s!"HTTPError: {e.status}"

/-- Re-raise an `HTTPError` as a generic Python exception message (the
activities' `except Exception` clause catches both alike). -/
def liftHTTP {α : Type} (r : Except HTTPError α) : Except String α :=
  match r with
  | .ok a => .ok a
  | .error e => .error s!"HTTPError: {e.status}"

/-- `get_control_profiles`: all pages of the control-profile catalog
endpoint (errors propagate). -/
def get_control_profiles (pages : Except HTTPError (List Dict)) :
    Except String (List Dict) :=
  liftHTTP pages

/-! ## Activity: collect_tenant_data
(src/functions/activities/collect_tenant_data.py) -/

/-- Outcomes of the effectful operations `collect_tenant_data.main`
performs, abstracting the network and the connection factory. -/
structure ScoreEnv where
  get_graph_token : Except String String
  secure_scores_pages : Except HTTPError (List Dict)
  control_profiles_pages : Except HTTPError (List Dict)
  get_connection : Except String Unit

/-- The uniform `{"tenant_id": ..., "success": False, "error": str(exc)}`
payload every fan-out activity returns from its `except` clause. -/
def taskFailureDict (tenant_id : Val) (err : String) : Dict :=
  [("tenant_id", tenant_id), ("success", .bool false), ("error", .str err)]

/-- `collect_tenant_data`'s success payload. -/
def scoreSuccessDict (tenant_id : Val) (snapshots : Nat) : Dict :=
  [("tenant_id", tenant_id), ("success", .bool true),
   ("snapshots", .num snapshots)]

/-- One iteration of the per-snapshot persist loop of
`collect_tenant_data.main`: `snapshot_date = score["createdDateTime"][:10]`
(KeyError when the key is absent), then the three upserts for that
snapshot. -/
def persistSnapshotStep (tenant_id : Val) (db : Store) (score : Dict) :
    Except String Store := do
  let snapshot_date ←
    match score.get? "createdDateTime" with
    | none => Except.error "KeyError: 'createdDateTime'"
    | some (.str s) => Except.ok (s.take 10)
    | some _ => Except.error "TypeError: 'createdDateTime' value is not sliceable"
  let db ← upsert_secure_score db tenant_id score
  let db ← upsert_control_scores db tenant_id snapshot_date
    (pyGetD score "controlScores" (.arr []))
  upsert_benchmarks db tenant_id snapshot_date
    (pyGetD score "averageComparativeScores" (.arr []))

/-- The per-snapshot persist loop of `collect_tenant_data.main`. -/
def persistSnapshots (db : Store) (tenant_id : Val) (scores : List Dict) :
    Except String Store :=
  scores.foldlM (persistSnapshotStep tenant_id) db

/-- The `try:` block of `collect_tenant_data.main`: authenticate, fetch
90 days of snapshots and the profile catalog, open a tenant-scoped
connection (session scoping is modelled by the connection traces below),
persist everything and build the success payload. -/
def collect_tenant_data_body (tenant_id : Val) (env : ScoreEnv)
    (db : Store) : Except String (Store × Dict) := do
  let _token ← env.get_graph_token
  let scores ← get_secure_scores env.secure_scores_pages 90
  let profiles ← get_control_profiles env.control_profiles_pages
  let _conn ← env.get_connection
  let db ← persistSnapshots db tenant_id scores
  let db ← upsert_control_profiles db tenant_id profiles
  let db := mark_tenant_synced db tenant_id
  .ok (db, scoreSuccessDict tenant_id scores.length)

/-- `collect_tenant_data.main`: `tenant["tenant_id"]` is read BEFORE the
`try:` block (a missing key propagates); everything inside the `try:` is
converted by the `except Exception` clause into the structured failure
payload. -/
def collect_tenant_data_main (tenant : Dict) (env : ScoreEnv)
    (db : Store) : Except String Dict :=
  match tenant.get? "tenant_id" with
  | none => .error "KeyError: 'tenant_id'"
  | some tenant_id =>
    match collect_tenant_data_body tenant_id env db with
    | .ok (_, d) => .ok d
    | .error e => .ok (taskFailureDict tenant_id e)

/-! ## Activity: collect_compliance_data
(src/functions/activities/collect_compliance_data.py) -/

/-- Outcomes of the effectful operations `collect_compliance_data.main`
performs.  The `sdk_*` fields are the outcomes of the awaited SDK calls
(the SDK helpers catch these internally); the `http_*` fields are the
raw-transport outcomes consumed by the fallback helpers. -/
structure ComplianceEnv where
  get_graph_client : Except String Unit
  get_graph_token : Except String String
  sdk_score : Except String (Option Dict)
  sdk_breakdown : Except String (List Dict)
  sdk_assessments : Except String (List Dict)
  sdk_controls : Val → Except String (List Dict)
  http_score : Except HTTPError Dict
  http_breakdown : Except HTTPError (List Dict)
  http_assessments_preferred : Except HTTPError (List Dict)
  http_assessments_alt : Except HTTPError (List Dict)
  http_controls_preferred : Val → Except HTTPError (List Dict)
  http_controls_alt : Val → Except HTTPError (List Dict)
  get_connection : Except String Unit
  today : String

/-- Python truthiness of `score_data` (`None` or a dict). -/
def optDictTruthy : Option Dict → Bool
  | none => false
  | some d => !d.isEmpty

/-- Python `v > 0` on a dynamic value: numeric comparison, `TypeError`
otherwise. -/
def valGtZero (v : Val) : Except String Bool :=
  match v with
  | .num q => .ok (decide (0 < q))
  | _ => .error "TypeError: not orderable with int"

/-- Python `sum(xs)` over dynamic values: numeric only. -/
def valsSum (xs : List Val) : Except String ℚ :=
  xs.foldlM (fun acc v =>
    match v with
    | .num q => .ok (acc + q)
    | _ => .error "TypeError: unsupported operand type for +")
    0

/-- Lines 60–63: compliance score — SDK first; when the SDK value is
`None`, lazily fetch a raw token and fall back to raw HTTP. -/
def fetchComplianceScore (env : ComplianceEnv) :
    Except String (Option Dict) :=
  match get_compliance_score_sdk env.sdk_score with
  | some d => .ok (some d)
  | none => do
    let _tok ← env.get_graph_token
    liftHTTP (get_compliance_score env.http_score)

/-- Lines 74–76: category breakdown — SDK first; when the SDK list is
empty (falsy), fall back to raw HTTP. -/
def fetchCategories (env : ComplianceEnv) : Except String (List Dict) :=
  let cs := get_compliance_score_breakdown_sdk env.sdk_breakdown
  if cs.isEmpty then do
    let _tok ← env.get_graph_token
    liftHTTP (get_compliance_score_breakdown env.http_breakdown)
  else .ok cs

/-- Lines 80–83: assessments — SDK first; when the SDK list is empty,
fall back to raw HTTP (preferred endpoint, then alternative). -/
def fetchAssessments (env : ComplianceEnv) : Except String (List Dict) :=
  let as := get_compliance_assessments_sdk env.sdk_assessments
  if as.isEmpty then do
    let _tok ← env.get_graph_token
    liftHTTP (get_compliance_assessments env.http_assessments_preferred
      env.http_assessments_alt)
  else .ok as

/-- Lines 131–135: controls for one assessment — SDK first; when the SDK
list is empty, fall back to raw HTTP. -/
def fetchControls (env : ComplianceEnv) (assessment_id : Val) :
    Except String (List Dict) :=
  let cs := get_assessment_controls_sdk (env.sdk_controls assessment_id)
  if cs.isEmpty then do
    let _tok ← env.get_graph_token
    liftHTTP (get_assessment_controls
      (env.http_controls_preferred assessment_id)
      (env.http_controls_alt assessment_id))
  else .ok cs

/-- Line 104's condition `score_count > 0 or current > 0`: Python `or`
short-circuits, so `current > 0` (a `TypeError` on non-numeric values) is
evaluated only when `score_count` is zero. -/
def overallWriteCond (score_count : Nat) (current : Val) :
    Except String Bool :=
  if score_count > 0 then .ok true else valGtZero current

/-- Lines 86–96: when no direct compliance score was obtained, derive one
as the mean of the assessments' scores (`max_score` 100). -/
def deriveScore (score_data : Option Dict) (assessments : List Dict)
    (triple : Val × Val × Nat) : Except String (Val × Val × Nat) :=
  if !(optDictTruthy score_data) && !assessments.isEmpty then
    let scores_list := (assessments.filter (fun a =>
        !(pyGetD a "complianceScore" (pyGet a "compliance_score") == .null))).map
      (fun a =>
        let v := pyGetD a "complianceScore" (pyGetD a "compliance_score" (.num 0))
        if v.truthy then v else .num 0)
    if !scores_list.isEmpty then do
      let s ← valsSum scores_list
      .ok (.num (s / scores_list.length), .num 100, 1)
    else .ok triple
  else .ok triple

/-- The per-assessment loop (lines 121–141): normalize and upsert each
assessment, then fetch, normalize and upsert its controls (skipped when
the assessment has no truthy id), counting controls. -/
def persistAssessments (env : ComplianceEnv) (db : Store)
    (tenant_id : Val) (assessments : List Dict) :
    Except String (Store × Nat) :=
  assessments.foldlM (fun (acc : Store × Nat) assessment => do
    let (db, cnt) := acc
    let normalized := normalize_assessment assessment
    let db := upsert_assessment db tenant_id normalized
    let assessment_id := pyGet assessment "id"
    if !assessment_id.truthy then
      .ok (db, cnt)
    else do
      let controls ← fetchControls env assessment_id
      let db := controls.foldl (fun db ctrl =>
        upsert_assessment_control db tenant_id assessment_id
          (normalize_control ctrl)) db
      .ok (db, cnt + controls.length))
    (db, 0)

/-- `collect_compliance_data`'s success payload. -/
def complianceSuccessDict (tenant_id : Val) (compliance_score : Val)
    (assessments controls categories : Nat) : Dict :=
  [("tenant_id", tenant_id), ("success", .bool true),
   ("compliance_score", compliance_score),
   ("assessments", .num assessments), ("controls", .num controls),
   ("categories", .num categories)]

/-- The `try:` block of `collect_compliance_data.main`. -/
def collect_compliance_data_body (tenant_id : Val) (env : ComplianceEnv)
    (db : Store) : Except String (Store × Dict) := do
  let _client ← env.get_graph_client
  let score_data ← fetchComplianceScore env
  let triple : Val × Val × Nat :=
    if optDictTruthy score_data then
      match score_data with
      | some d =>
        (pyGetD d "currentScore" (pyGetD d "current_score" (.num 0)),
         pyGetD d "maxScore" (pyGetD d "max_score" (.num 0)), 1)
      | none => (.num 0, .num 0, 0)
    else (.num 0, .num 0, 0)
  let categories ← fetchCategories env
  let cat_count := categories.length
  let assessments ← fetchAssessments env
  let triple ← deriveScore score_data assessments triple
  let (current, max_sc, score_count) := triple
  let _conn ← env.get_connection
  let writeOverall ← overallWriteCond score_count current
  let db :=
    if writeOverall then
      upsert_compliance_score db tenant_id env.today current max_sc
        (.str "overall")
    else db
  let db := categories.foldl (fun db cat =>
    upsert_compliance_score db tenant_id env.today
      (pyGetD cat "currentScore" (pyGetD cat "current_score" (.num 0)))
      (pyGetD cat "maxScore" (pyGetD cat "max_score" (.num 0)))
      (pyGetD cat "categoryName" (pyGetD cat "category_name"
        (pyGetD cat "displayName" (pyGetD cat "display_name"
          (.str "unknown")))))) db
  let (db, ctrl_count) ← persistAssessments env db tenant_id assessments
  let db := mark_tenant_synced db tenant_id
  .ok (db, complianceSuccessDict tenant_id current assessments.length
    ctrl_count cat_count)

/-- `collect_compliance_data.main`: `tenant["tenant_id"]` is read BEFORE
the `try:` block; everything inside the `try:` is converted by the
`except Exception` clause into the structured failure payload. -/
def collect_compliance_data_main (tenant : Dict) (env : ComplianceEnv)
    (db : Store) : Except String Dict :=
  match tenant.get? "tenant_id" with
  | none => .error "KeyError: 'tenant_id'"
  | some tenant_id =>
    match collect_compliance_data_body tenant_id env db with
    | .ok (_, d) => .ok d
    | .error e => .ok (taskFailureDict tenant_id e)

/-! ## Security scope: session context and per-connection statement traces

`set_tenant_context` / `set_admin_context` (src/shared/sql_client.py) set
SESSION_CONTEXT keys with `@read_only = 1`.  The server-side behaviour of
`sp_set_session_context` is not part of this repository. -/

/-- A SQL Server session context: key → (value, read_only). -/
structure SessionCtx where
  entries : List (String × Val × Bool)
  deriving DecidableEq, Repr

def SessionCtx.lookup (ctx : SessionCtx) (k : String) : Option (Val × Bool) :=
  match ctx.entries.find? (fun e => e.1 == k) with
  | some e => some e.2
  | none => none

/-- Modelled from the spec: `sp_set_session_context` stores (key, value);
`@read_only = 1` makes the key immutable, and any later attempt to set a
key that was stored read-only is rejected with an error ("once set for a
connection, must not be changed ... prevents any subsequent code from
overwriting the context"). -/
def sp_set_session_context (ctx : SessionCtx) (k : String) (v : Val)
    (read_only : Bool) : Except String SessionCtx :=
  match ctx.lookup k with
  | some (_, true) =>
    .error "Cannot set key in the session context. The key has been set as read_only for this session."
  | _ => .ok ⟨(k, v, read_only) :: ctx.entries.filter (fun e => !(e.1 == k))⟩

/-- `set_tenant_context`: two `sp_set_session_context` statements, each
read-only: `tenant_id := tid`, then `is_admin := 0`.  Returns the session
state actually reached together with the call's outcome (an error raised
by the second statement leaves the first statement's effect in place, as
each EXEC runs separately on the server). -/
def set_tenant_context_run (ctx : SessionCtx) (tenant_id : Val) :
    SessionCtx × Except String Unit :=
  match sp_set_session_context ctx "tenant_id" tenant_id true with
  | .error e => (ctx, .error e)
  | .ok ctx1 =>
    match sp_set_session_context ctx1 "is_admin" (.num 0) true with
    | .error e => (ctx1, .error e)
    | .ok ctx2 => (ctx2, .ok ())

/-- `set_admin_context`: one read-only statement `is_admin := 1`. -/
def set_admin_context_run (ctx : SessionCtx) :
    SessionCtx × Except String Unit :=
  match sp_set_session_context ctx "is_admin" (.num 1) true with
  | .error e => (ctx, .error e)
  | .ok ctx1 => (ctx1, .ok ())

/-- The security scope the RLS predicate sees: admin when `is_admin = 1`,
else the bound tenant, else unscoped (fresh connection). -/
inductive Scope where
  | unscoped
  | tenant (tenant_id : Val)
  | admin
  deriving DecidableEq, Repr

def effectiveScope (ctx : SessionCtx) : Scope :=
  let isAdmin : Bool :=
    match ctx.lookup "is_admin" with
    | some (v, _) => v == .num 1
    | none => false
  if isAdmin then
    .admin
  else
    match ctx.lookup "tenant_id" with
    | some (v, _) => .tenant v
    | none => .unscoped

/-- The session context of a fresh connection. -/
def freshSession : SessionCtx := ⟨[]⟩

/-- Session state of a connection scoped to a tenant by its (successful)
first `set_tenant_context` call. -/
def tenantScopedSession (tenant_id : Val) : SessionCtx :=
  (set_tenant_context_run freshSession tenant_id).1

/-- Session state of a connection scoped admin by its (successful) first
`set_admin_context` call. -/
def adminScopedSession : SessionCtx :=
  (set_admin_context_run freshSession).1

/-! ### Statement traces of every `get_connection()` site in the repo

One constructor per scope-setting helper; `exec`/`commit` for every other
statement issued on the connection. -/

inductive ConnOp where
  | setTenantContext (tenant_id : Val)
  | setAdminContext
  | exec (sql : String)
  | commit
  deriving DecidableEq, Repr

def ConnOp.isScopeSet : ConnOp → Bool
  | .setTenantContext _ => true
  | .setAdminContext => true
  | _ => false

/-- The claim's per-connection discipline: the very first statement after
opening is a scope-setting call, and no other scope-setting call ever
occurs on the connection. -/
def scopeDiscipline (tr : List ConnOp) : Bool :=
  match tr with
  | op :: rest => op.isScopeSet && rest.all (fun o => !o.isScopeSet)
  | [] => false

/-- Statements of `collect_tenant_data.main`'s connection: scope first,
then per snapshot the secure-score MERGE + the control-score MERGEs + the
benchmark MERGEs (`(controls, benchmarks)` counts per snapshot), then the
profile-catalog MERGEs and the sync timestamp.  (A run that raises midway
issues a prefix of this trace.) -/
def collect_tenant_data_conn_trace (tenant_id : Val)
    (snapshots : List (Nat × Nat)) (profileCount : Nat) : List ConnOp :=
  .setTenantContext tenant_id ::
    (snapshots.flatMap (fun nb =>
      [.exec "MERGE secure_scores", .commit]
      ++ List.replicate nb.1 (.exec "MERGE control_scores") ++ [.commit]
      ++ List.replicate nb.2 (.exec "MERGE benchmark_scores") ++ [.commit])
    ++ List.replicate profileCount (.exec "MERGE control_profiles")
    ++ [.commit, .exec "UPDATE tenants SET last_synced_at", .commit])

/-- Statements of `collect_compliance_data.main`'s connection: scope
first, then the optional overall-score MERGE, one MERGE per category, and
per assessment its MERGE plus its controls' MERGEs (`(hasId, controls)`
per assessment), then the sync timestamp. -/
def collect_compliance_data_conn_trace (tenant_id : Val)
    (overallWritten : Bool) (categoryCount : Nat)
    (perAssessment : List (Bool × Nat)) : List ConnOp :=
  .setTenantContext tenant_id ::
    ((if overallWritten then [.exec "MERGE compliance_scores", .commit] else [])
    ++ (List.replicate categoryCount
         [ConnOp.exec "MERGE compliance_scores", .commit]).flatten
    ++ perAssessment.flatMap (fun a =>
        [.exec "MERGE assessments", .commit]
        ++ (if a.1 then
              (List.replicate a.2
                [ConnOp.exec "MERGE assessment_controls", .commit]).flatten
            else []))
    ++ [.exec "UPDATE tenants SET last_synced_at", .commit])

/-- Statements of the `get_active_tenants` activity's connection. -/
def get_active_tenants_conn_trace : List ConnOp :=
  [.setAdminContext, .exec "SELECT ... FROM tenants WHERE is_active = 1"]

/-- Statements of `reindex_search.main`'s connection. -/
def reindex_search_conn_trace : List ConnOp :=
  [.setAdminContext, .exec "SELECT ... FROM control_scores JOIN tenants ..."]

/-- Connections that set admin scope then only run read queries: the
eight http_api handlers, the weekly-digest and executive-briefing query
helpers, and the weekly-digest prompt-flow nodes. -/
def admin_query_conn_trace (queries : List String) : List ConnOp :=
  .setAdminContext :: queries.map .exec

/-- Statements of `cm_parser`'s ingest connection: tenant scope first,
one MERGE per spreadsheet row, one commit. -/
def cm_parser_conn_trace (tenant_id : Val) (rows : Nat) : List ConnOp :=
  .setTenantContext tenant_id ::
    (List.replicate rows (ConnOp.exec "MERGE cm_actions") ++ [.commit])

/-! ## Durable orchestrator (src/functions/orchestrator/__init__.py) -/

/-- The two domain-sync activity calls scheduled per tenant in the
fan-out loop, in source order. -/
def fanout_tasks (tenants : List Dict) : List (String × Dict) :=
  tenants.flatMap (fun t =>
    [("collect_tenant_data", t), ("collect_compliance_data", t)])

/-- Observable events of one orchestration run. -/
inductive OrchEvent where
  | callGetActiveTenants
  | scheduleTask (activity : String) (tenant : Dict)
  | taskCompleted (activity : String) (tenant : Dict) (result : Dict)
  | callReindex
  deriving DecidableEq, Repr

/-- One run of `orchestrator_function`.  The phase order (registry load,
fan-out, join, reindex) is the generator's source order; the join
semantics of `yield context.task_all(tasks)` — the generator resumes only
after EVERY scheduled task has completed — is modelled from the spec
("hard join barrier").  `results` gives each task's structured result
payload and `completionOrder` is the arbitrary order in which the runtime
finishes the tasks (any permutation of the scheduled set). -/
def orchestrator_trace (tenants : List Dict)
    (results : String × Dict → Dict)
    (completionOrder : List (String × Dict)) : List OrchEvent :=
  .callGetActiveTenants ::
    ((fanout_tasks tenants).map (fun nt => .scheduleTask nt.1 nt.2)
    ++ completionOrder.map (fun nt => .taskCompleted nt.1 nt.2 (results nt))
    ++ [.callReindex])

/-! ## Credential provider (src/shared/auth.py) -/

/-- The module-level names `shared/auth.py` defines (its import surface). -/
def auth_module_names : List String :=
  ["_kv_client", "_GRAPH_CLOUD", "_IS_USGOV", "LOGIN_URL", "GRAPH_SCOPE",
   "GRAPH_AUTHORITY", "_get_kv_client", "_get_tenant_credential",
   "get_graph_token"]

/-- The names `collect_compliance_data.py` imports from `shared.auth`
(line 16: `from shared.auth import get_graph_client, get_graph_token`). -/
def compliance_activity_auth_imports : List String :=
  ["get_graph_client", "get_graph_token"]

/-! ## Claim-support definitions -/

/-- Number of `compliance_scores` rows carrying a given
(tenant_id, snapshot_date, category) upsert key. -/
def complianceKeyCount (rows : List ComplianceScoreRow) (tenant_id : Val)
    (snapshot_date : String) (category : Val) : Nat :=
  rows.countP (fun r =>
    r.tenant_id == tenant_id && r.snapshot_date == snapshot_date &&
      r.category == category)

/-- Number of registry rows that are active and carry a given tenant id. -/
def countActiveTid (ts : List TenantRow) (tid : String) : Nat :=
  ts.countP (fun t => t.is_active && t.tenant_id == tid)

/-- Number of scheduled fan-out tasks for one activity and tenant id. -/
def tasksForActivity (tasks : List (String × Dict)) (activity : String)
    (tid : String) : Nat :=
  tasks.countP (fun nt =>
    nt.1 == activity && nt.2.get? "tenant_id" == some (.str tid))

/-- Number of scheduled fan-out tasks for one tenant id, any activity. -/
def tasksForTenant (tasks : List (String × Dict)) (tid : String) : Nat :=
  tasks.countP (fun nt => nt.2.get? "tenant_id" == some (.str tid))

/-- A store with empty tables (used to instantiate theorems). -/
def emptyStore : Store :=
  { now := "2026-10-12T00:00:00"
  , tenants := [], secure_scores := [], control_scores := []
  , benchmark_scores := [], control_profiles := [], compliance_scores := []
  , assessments := [], assessment_controls := [] }

/-- Attempt statuses: four retryable failures, then success. -/
def statusesFourThenOk : Nat → Nat := fun i => if i < 4 then 500 else 200

/-- Attempt statuses: throttled on every attempt. -/
def statusesAlways429 : Nat → Nat := fun _ => 429

/-- The structured result contract of the score-domain activity: either
the success payload with its snapshot count, or the failure payload with
the tenant id and an error message. -/
def structuredScoreResult (tenant_id : Val) (d : Dict) : Prop :=
  (∃ n, d = scoreSuccessDict tenant_id n) ∨
  (∃ e, d = taskFailureDict tenant_id e)

/-- The structured result contract of the compliance-domain activity. -/
def structuredComplianceResult (tenant_id : Val) (d : Dict) : Prop :=
  (∃ cur a c g, d = complianceSuccessDict tenant_id cur a c g) ∨
  (∃ e, d = taskFailureDict tenant_id e)

/-- A compliance environment where the SDK score endpoint returns nothing
(without raising) and the raw-HTTP fallback raises a 500. -/
def envPrimaryEmptyFallbackRaises : ComplianceEnv :=
  { get_graph_client := .ok ()
  , get_graph_token := .ok "tok"
  , sdk_score := .ok none
  , sdk_breakdown := .ok []
  , sdk_assessments := .ok []
  , sdk_controls := fun _ => .ok []
  , http_score := .error ⟨500⟩
  , http_breakdown := .ok []
  , http_assessments_preferred := .ok []
  , http_assessments_alt := .ok []
  , http_controls_preferred := fun _ => .ok []
  , http_controls_alt := fun _ => .ok []
  , get_connection := .ok ()
  , today := "2026-10-12" }

/-- A compliance environment where every SDK endpoint returns nothing and
the raw-HTTP fallbacks return data. -/
def envPrimaryEmptyFallbackData : ComplianceEnv :=
  { get_graph_client := .ok ()
  , get_graph_token := .ok "tok"
  , sdk_score := .ok none
  , sdk_breakdown := .ok []
  , sdk_assessments := .error "SDK: assessments endpoint failed"
  , sdk_controls := fun _ => .ok []
  , http_score := .ok [("currentScore", .num 80), ("maxScore", .num 100)]
  , http_breakdown := .ok []
  , http_assessments_preferred :=
      .ok [[("id", .str "a1"), ("displayName", .str "SOC 2")]]
  , http_assessments_alt := .ok []
  , http_controls_preferred := fun _ => .ok [[("id", .str "c1")]]
  , http_controls_alt := fun _ => .ok []
  , get_connection := .ok ()
  , today := "2026-10-12" }

/-- A score-domain environment whose fetches all succeed, returning one
snapshot dict that lacks `createdDateTime`. -/
def envSnapshotMissingDate : ScoreEnv :=
  { get_graph_token := .ok "tok"
  , secure_scores_pages := .ok [[("currentScore", .num 50)]]
  , control_profiles_pages := .ok []
  , get_connection := .ok () }

/-- A tenant registry for instantiating the orchestration claims: one
active tenant `t-a`, one inactive tenant `t-b`. -/
def sampleRegistry : List TenantRow :=
  [ { tenant_id := "t-a", display_name := .str "Tenant A"
    , region := .str "eu", department := .str "R&D"
    , department_head := .null, risk_tier := .str "high"
    , app_id := .str "app-a", kv_secret_name := .str "kv-a"
    , is_active := true, last_synced_at := .null }
  , { tenant_id := "t-b", display_name := .str "Tenant B"
    , region := .str "us", department := .str "Ops"
    , department_head := .null, risk_tier := .str "low"
    , app_id := .str "app-b", kv_secret_name := .str "kv-b"
    , is_active := false, last_synced_at := .null } ]

/-- The store holding `sampleRegistry`. -/
def sampleStore : Store := { emptyStore with tenants := sampleRegistry }

/-! ## Helper lemmas -/

theorem exceptBind_ok {ε α β : Type} {x : Except ε α} {f : α → Except ε β}
    {b : β} (h : (x >>= f) = .ok b) : ∃ a, x = .ok a ∧ f a = .ok b := by
  cases x with
  | error e => simp [Bind.bind, Except.bind] at h
  | ok a => exact ⟨a, rfl, by simpa [Bind.bind, Except.bind] using h⟩

instance : LawfulBEq Val where
  eq_of_beq h := (Val.beq_iff _ _).mp h
  rfl := (Val.beq_iff _ _).mpr rfl

theorem chainGet_cons (d : Dict) (k : String) (rest : List String)
    (v : Val) : chainGet d (k :: rest) v = pyGetD d k (chainGet d rest v) := by
  cases h : d.get? k <;> simp [chainGet, pyGetD, h]

theorem chainGet_nil (d : Dict) (v : Val) : chainGet d [] v = v := rfl

/-! ## Claims -/

/-- **C9** (counterexample): the claim says each canonical key is bound to
the first present NON-NULL source-spelling value; but the `d.get(k1,
d.get(k2, ...))` chains stop at the first PRESENT key even when its value
is `None`.  On `{"displayName": None, "display_name": "X"}` the first
present non-null spelling value is `"X"`, yet `_normalize_assessment`
binds `displayName` to `None`. -/
theorem C9_counterexample :
    (normalize_assessment
      [("displayName", Val.null), ("display_name", Val.str "X")]).get?
        "displayName" = some Val.null ∧
    Val.null ≠ Val.str "X" := by
  constructor
  · rfl
  · decide

/-- **C9** (amended): the normalizers are total pure functions: for every
input dict (keys may be missing or bound to `None`), `_normalize_assessment`
and `_normalize_control` never raise and return a dict containing exactly
the canonical keys, each bound to the value of the first PRESENT source
spelling (even when that value is null), or to its per-field default
(empty string for the display-name fields, null otherwise) when no
spelling is present. -/
theorem C9_normalizers_total (a c : Dict) :
    ((normalize_assessment a).map Prod.fst
        = assessmentFieldSpec.map (fun f => f.1) ∧
      ∀ f ∈ assessmentFieldSpec,
        (normalize_assessment a).get? f.1 = some (chainGet a f.2.1 f.2.2)) ∧
    ((normalize_control c).map Prod.fst
        = controlFieldSpec.map (fun f => f.1) ∧
      ∀ f ∈ controlFieldSpec,
        (normalize_control c).get? f.1 = some (chainGet c f.2.1 f.2.2)) := by
  refine ⟨⟨rfl, ?_⟩, ⟨rfl, ?_⟩⟩ <;>
    · intro f hf
      fin_cases hf <;> (simp only [chainGet_cons, chainGet_nil]; rfl)

theorem countP_map_update {ρ : Type} (p : ρ → Bool) (upd : ρ → ρ)
    (hupd : ∀ r, p (upd r) = p r) :
    ∀ rows : List ρ,
      (rows.map (fun r => if p r then upd r else r)).countP p
        = rows.countP p := by
  intro rows
  induction rows with
  | nil => rfl
  | cons r rs ih =>
    by_cases hr : p r <;>
      simp [List.map_cons, List.countP_cons, hr, hupd, ih]

theorem mergeRows_countP {ρ : Type} (rows : List ρ) (p : ρ → Bool)
    (upd : ρ → ρ) (new : ρ) (hupd : ∀ r, p (upd r) = p r)
    (hnew : p new = true) (hle : rows.countP p ≤ 1) :
    (mergeRows rows p upd new).countP p = 1 := by
  unfold mergeRows
  split
  · rename_i hany
    have hpos : 0 < rows.countP p := by
      rw [List.countP_pos_iff]
      simpa [List.any_eq_true] using hany
    rw [countP_map_update p upd hupd]
    omega
  · rename_i hany
    have h0 : rows.countP p = 0 := by
      rw [List.countP_eq_zero]
      intro a ha
      exact fun hpa => hany (List.any_eq_true.mpr ⟨a, ha, hpa⟩)
    simp [List.countP_append, h0, hnew, List.countP_cons]

theorem mergeRows_mem_key {ρ : Type} (rows : List ρ) (p : ρ → Bool)
    (upd : ρ → ρ) (new : ρ) :
    ∀ r ∈ mergeRows rows p upd new, p r = true →
      (∃ r0, r0 ∈ rows ∧ p r0 = true ∧ r = upd r0) ∨ r = new := by
  unfold mergeRows
  split
  · intro r hr hp
    rcases List.mem_map.mp hr with ⟨r0, hr0, heq⟩
    by_cases h : p r0
    · left
      exact ⟨r0, hr0, h, by rw [← heq]; simp [h]⟩
    · exfalso
      rw [if_neg h] at heq
      rw [heq] at h
      exact h hp
  · rename_i hany
    intro r hr hp
    rcases List.mem_append.mp hr with h | h
    · exact absurd (List.any_eq_true.mpr ⟨r, h, hp⟩) hany
    · right
      simpa using h

/-- **C6**: for every (tenant_id, snapshot_date, category) key,
`upsert_compliance_score` is idempotent on row identity: starting from a
table with at most one row for the key, after any call there is exactly
one row for the key; calling it again with identical or different score
values still leaves exactly one row, whose `current_score` and
`max_score` are the values of the latest call — no duplicate row is ever
created. -/
theorem C6_upsert_compliance_score_idempotent (db : Store) (tid : Val)
    (date : String) (cat : Val) (c1 m1 c2 m2 : Val)
    (hle : complianceKeyCount db.compliance_scores tid date cat ≤ 1) :
    complianceKeyCount
        (upsert_compliance_score db tid date c1 m1 cat).compliance_scores
        tid date cat = 1 ∧
    complianceKeyCount
        (upsert_compliance_score (upsert_compliance_score db tid date c1 m1 cat)
          tid date c2 m2 cat).compliance_scores tid date cat = 1 ∧
    ∀ r ∈ (upsert_compliance_score (upsert_compliance_score db tid date c1 m1 cat)
          tid date c2 m2 cat).compliance_scores,
      r.tenant_id = tid → r.snapshot_date = date → r.category = cat →
        r.current_score = c2 ∧ r.max_score = m2 := by
  have hupd : ∀ (c m : Val) (r : ComplianceScoreRow),
      (fun r : ComplianceScoreRow =>
        r.tenant_id == tid && r.snapshot_date == date && r.category == cat)
        ({ r with current_score := c, max_score := m })
      = (fun r : ComplianceScoreRow =>
        r.tenant_id == tid && r.snapshot_date == date && r.category == cat) r :=
    fun _ _ _ => rfl
  have hnew : ∀ (c m : Val),
      (fun r : ComplianceScoreRow =>
        r.tenant_id == tid && r.snapshot_date == date && r.category == cat)
        { tenant_id := tid, snapshot_date := date, current_score := c,
          max_score := m, category := cat } = true := by
    simp
  have h1 : complianceKeyCount
      (upsert_compliance_score db tid date c1 m1 cat).compliance_scores
      tid date cat = 1 :=
    mergeRows_countP _ _ _ _ (hupd c1 m1) (hnew c1 m1) hle
  have h2 : complianceKeyCount
      (upsert_compliance_score (upsert_compliance_score db tid date c1 m1 cat)
        tid date c2 m2 cat).compliance_scores tid date cat = 1 :=
    mergeRows_countP _ _ _ _ (hupd c2 m2) (hnew c2 m2) (le_of_eq h1)
  refine ⟨h1, h2, ?_⟩
  intro r hr hrt hrd hrc
  have hp : (fun r : ComplianceScoreRow =>
      r.tenant_id == tid && r.snapshot_date == date && r.category == cat) r
        = true := by
    simp [hrt, hrd, hrc]
  rcases mergeRows_mem_key _ _ _ _ r hr hp with ⟨r0, _, _, hre⟩ | hre <;>
    rw [hre] <;> exact ⟨rfl, rfl⟩

/-- **C6** (witness): two consecutive upserts of the same key on an empty
table leave exactly one row, carrying the second call's scores. -/
theorem C6_witness :
    complianceKeyCount
        (upsert_compliance_score
          (upsert_compliance_score emptyStore (.str "t-a") "2026-10-12"
            (.num 80) (.num 100) (.str "overall"))
          (.str "t-a") "2026-10-12" (.num 85) (.num 100)
          (.str "overall")).compliance_scores
        (.str "t-a") "2026-10-12" (.str "overall") = 1 :=
  (C6_upsert_compliance_score_idempotent emptyStore (.str "t-a") "2026-10-12"
    (.str "overall") (.num 80) (.num 100) (.num 85) (.num 100)
    (by decide)).2.1

theorem retryExec_ok (statuses : Nat → Nat) :
    ∀ (N a rl : Nat), N ≤ rl →
      (∀ i < N, statuses (a + i) ∈ sessionRetry.status_forcelist) →
      statuses (a + N) ∉ sessionRetry.status_forcelist →
      retryExec statuses a rl = .ok (statuses (a + N), a + N + 1) := by
  intro N
  induction N with
  | zero =>
    intro a rl _ _ hterm
    unfold retryExec
    rw [if_neg (by simpa using hterm)]
    simp
  | succ n ih =>
    intro a rl hle hfail hterm
    have h0 : statuses a ∈ sessionRetry.status_forcelist := by
      simpa using hfail 0 (by omega)
    cases rl with
    | zero => omega
    | succ m =>
      unfold retryExec
      rw [if_pos h0]
      have hfail' : ∀ i < n, statuses (a + 1 + i) ∈
          sessionRetry.status_forcelist := by
        intro i hi
        have h := hfail (i + 1) (by omega)
        rwa [show a + (i + 1) = a + 1 + i by omega] at h
      have hterm' : statuses (a + 1 + n) ∉
          sessionRetry.status_forcelist := by
        rwa [show a + 1 + n = a + (n + 1) by omega]
      have h := ih (a + 1) m (by omega) hfail' hterm'
      show retryExec statuses (a + 1) m
        = .ok (statuses (a + (n + 1)), a + (n + 1) + 1)
      rw [show a + (n + 1) = a + 1 + n by omega]
      exact h

theorem retryExec_exhaust (statuses : Nat → Nat) :
    ∀ (rl a : Nat),
      (∀ i ≤ rl, statuses (a + i) ∈ sessionRetry.status_forcelist) →
      retryExec statuses a rl = .error ⟨statuses (a + rl)⟩ := by
  intro rl
  induction rl with
  | zero =>
    intro a h
    unfold retryExec
    rw [if_pos (by simpa using h 0 (Nat.le_refl 0))]
    simp
  | succ m ih =>
    intro a h
    unfold retryExec
    rw [if_pos (by simpa using h 0 (by omega))]
    have h' : ∀ i ≤ m, statuses (a + 1 + i) ∈
        sessionRetry.status_forcelist := by
      intro i hi
      have hh := h (i + 1) (by omega)
      rwa [show a + (i + 1) = a + 1 + i by omega] at hh
    show retryExec statuses (a + 1) m
      = .error ⟨statuses (a + (m + 1))⟩
    rw [show a + (m + 1) = a + 1 + m by omega]
    exact ih (a + 1) h'

/-- **C8** (counterexample): the claim caps a GET at "4 attempts total";
but `Retry(total=4)` allows 4 RETRIES after the initial request, so a GET
whose first four responses are retryable 500s succeeds on the fifth
underlying attempt — five attempts total, exceeding the claimed cap of
four. -/
theorem C8_counterexample :
    sessionRequest "GET" statusesFourThenOk = .ok (200, 5) ∧ ¬(5 ≤ 4) := by
  constructor
  · rfl
  · decide

/-- **C8** (amended): raw-HTTP requests through the shared session retry
responses with status 429/500/502/503/504, honoring `Retry-After`, with
exponential backoff of coefficient 2, up to 4 RETRIES after the initial
attempt (at most 5 attempts total); only GET is retried (any other method
performs exactly one attempt); a GET that fails with a retryable status
N ≤ 4 times and then succeeds performs exactly N+1 underlying attempts,
and one whose first five responses are all retryable raises. -/
theorem C8_retry_policy :
    (sessionRetry.status_forcelist = [429, 500, 502, 503, 504] ∧
     sessionRetry.allowed_methods = ["GET"] ∧
     sessionRetry.respect_retry_after_header = true ∧
     sessionRetry.total = 4) ∧
    (∀ statuses N, N ≤ 4 →
      (∀ i < N, statuses i ∈ sessionRetry.status_forcelist) →
      statuses N ∉ sessionRetry.status_forcelist →
      sessionRequest "GET" statuses = .ok (statuses N, N + 1)) ∧
    (∀ statuses, (∀ i ≤ 4, statuses i ∈ sessionRetry.status_forcelist) →
      sessionRequest "GET" statuses = .error ⟨statuses 4⟩) ∧
    (∀ method statuses, method ∉ sessionRetry.allowed_methods →
      sessionRequest method statuses = .ok (statuses 0, 1)) ∧
    (∀ n, 1 ≤ n →
      backoffTime sessionRetry (n + 1) = 2 * backoffTime sessionRetry n) := by
  refine ⟨⟨rfl, rfl, rfl, rfl⟩, ?_, ?_, ?_, ?_⟩
  · intro statuses N hN hfail hterm
    unfold sessionRequest
    rw [if_pos (by decide)]
    have h := retryExec_ok statuses N 0 4 hN (by simpa using hfail)
      (by simpa using hterm)
    simpa using h
  · intro statuses h
    unfold sessionRequest
    rw [if_pos (by decide)]
    have hh := retryExec_exhaust statuses 4 0 (by simpa using h)
    simpa using hh
  · intro method statuses hm
    unfold sessionRequest
    rw [if_neg hm]
  · intro n hn
    cases n with
    | zero => omega
    | succ m =>
      simp [backoffTime, pow_succ]
      ring

/-- **C8** (witness): four 500s then a 200 succeed with five attempts;
constant 429s raise; a POST is never retried; the backoff doubles. -/
theorem C8_witness :
    sessionRequest "GET" statusesFourThenOk = .ok (200, 5) ∧
    sessionRequest "GET" statusesAlways429 = .error ⟨429⟩ ∧
    sessionRequest "POST" statusesFourThenOk = .ok (500, 1) ∧
    backoffTime sessionRetry 2 = 2 * backoffTime sessionRetry 1 := by
  refine ⟨?_, ?_, ?_, ?_⟩
  · have h := C8_retry_policy.2.1 statusesFourThenOk 4 (by omega)
      (by decide) (by decide)
    simpa [statusesFourThenOk] using h
  · have h := C8_retry_policy.2.2.1 statusesAlways429 (by decide)
    simpa [statusesAlways429] using h
  · exact C8_retry_policy.2.2.2.1 "POST" statusesFourThenOk (by decide)
  · exact C8_retry_policy.2.2.2.2 1 (by omega)

/-- **C7** (counterexample): the claim says an error is surfaced only if
BOTH paths raise; but every SDK helper catches its own exceptions and
returns `None`/`[]`, so the primary path never raises.  Here the SDK
score endpoint returns nothing WITHOUT raising (`.ok none`) while the
raw-HTTP fallback raises a 500 — and the fetch surfaces the error even
though only one path raised. -/
theorem C7_counterexample :
    fetchComplianceScore envPrimaryEmptyFallbackRaises
      = .error "HTTPError: 500" ∧
    envPrimaryEmptyFallbackRaises.sdk_score = .ok none := by
  exact ⟨rfl, rfl⟩

/-- **C7** (amended): for every logical fetch in the compliance domain
(score, category breakdown, assessments, per-assessment controls), the
typed-SDK implementation is consulted first and its non-`None`/non-empty
result is final (the fallback is not used); when the SDK result is `None`
(score) or empty (the list fetches), the raw-HTTP fallback's successful
result — in particular a non-empty one — becomes the final value rather
than an error; and an error is surfaced only when the SDK path came back
empty AND the fallback path raised (the SDK's own exceptions are caught
internally and treated as empty, so "both paths raise" is never
observable). -/
theorem C7_fallback_policy (env : ComplianceEnv) :
    ((∀ d, get_compliance_score_sdk env.sdk_score = some d →
        fetchComplianceScore env = .ok (some d)) ∧
     (∀ tok r, get_compliance_score_sdk env.sdk_score = none →
        env.get_graph_token = .ok tok →
        get_compliance_score env.http_score = .ok r →
        fetchComplianceScore env = .ok r) ∧
     (∀ e, fetchComplianceScore env = .error e →
        get_compliance_score_sdk env.sdk_score = none ∧
        ((∃ et, env.get_graph_token = .error et) ∨
         (∃ he, get_compliance_score env.http_score = .error he)))) ∧
    ((get_compliance_score_breakdown_sdk env.sdk_breakdown ≠ [] →
        fetchCategories env
          = .ok (get_compliance_score_breakdown_sdk env.sdk_breakdown)) ∧
     (∀ tok xs, get_compliance_score_breakdown_sdk env.sdk_breakdown = [] →
        env.get_graph_token = .ok tok →
        get_compliance_score_breakdown env.http_breakdown = .ok xs →
        fetchCategories env = .ok xs) ∧
     (∀ e, fetchCategories env = .error e →
        get_compliance_score_breakdown_sdk env.sdk_breakdown = [] ∧
        ((∃ et, env.get_graph_token = .error et) ∨
         (∃ he, get_compliance_score_breakdown env.http_breakdown
            = .error he)))) ∧
    ((get_compliance_assessments_sdk env.sdk_assessments ≠ [] →
        fetchAssessments env
          = .ok (get_compliance_assessments_sdk env.sdk_assessments)) ∧
     (∀ tok xs, get_compliance_assessments_sdk env.sdk_assessments = [] →
        env.get_graph_token = .ok tok →
        get_compliance_assessments env.http_assessments_preferred
          env.http_assessments_alt = .ok xs →
        fetchAssessments env = .ok xs) ∧
     (∀ e, fetchAssessments env = .error e →
        get_compliance_assessments_sdk env.sdk_assessments = [] ∧
        ((∃ et, env.get_graph_token = .error et) ∨
         (∃ he, get_compliance_assessments env.http_assessments_preferred
            env.http_assessments_alt = .error he)))) ∧
    (∀ aid,
      (get_assessment_controls_sdk (env.sdk_controls aid) ≠ [] →
        fetchControls env aid
          = .ok (get_assessment_controls_sdk (env.sdk_controls aid))) ∧
      (∀ tok xs, get_assessment_controls_sdk (env.sdk_controls aid) = [] →
        env.get_graph_token = .ok tok →
        get_assessment_controls (env.http_controls_preferred aid)
          (env.http_controls_alt aid) = .ok xs →
        fetchControls env aid = .ok xs) ∧
      (∀ e, fetchControls env aid = .error e →
        get_assessment_controls_sdk (env.sdk_controls aid) = [] ∧
        ((∃ et, env.get_graph_token = .error et) ∨
         (∃ he, get_assessment_controls (env.http_controls_preferred aid)
            (env.http_controls_alt aid) = .error he)))) := by
  refine ⟨⟨?_, ?_, ?_⟩, ⟨?_, ?_, ?_⟩, ⟨?_, ?_, ?_⟩, fun aid => ⟨?_, ?_, ?_⟩⟩
  · intro d h
    unfold fetchComplianceScore
    rw [h]
  · intro tok r h htok hr
    unfold fetchComplianceScore
    rw [h]
    simp [htok, Bind.bind, Except.bind, hr, liftHTTP]
  · intro e h
    unfold fetchComplianceScore at h
    cases hs : get_compliance_score_sdk env.sdk_score with
    | some d => rw [hs] at h; exact absurd h (by simp)
    | none =>
      rw [hs] at h
      refine ⟨rfl, ?_⟩
      cases htok : env.get_graph_token with
      | error et => exact .inl ⟨et, rfl⟩
      | ok tok =>
        rw [htok] at h
        cases hraw : get_compliance_score env.http_score with
        | ok r =>
          rw [hraw] at h
          simp [Bind.bind, Except.bind, liftHTTP] at h
        | error he => exact .inr ⟨he, rfl⟩
  · intro hne
    unfold fetchCategories
    rw [if_neg (by simpa [List.isEmpty_iff] using hne)]
  · intro tok xs h htok hr
    unfold fetchCategories
    rw [if_pos (by simpa [List.isEmpty_iff] using h)]
    simp [htok, Bind.bind, Except.bind, hr, liftHTTP]
  · intro e h
    unfold fetchCategories at h
    by_cases hs : get_compliance_score_breakdown_sdk env.sdk_breakdown = []
    · rw [if_pos (by simpa [List.isEmpty_iff] using hs)] at h
      refine ⟨hs, ?_⟩
      cases htok : env.get_graph_token with
      | error et => exact .inl ⟨et, rfl⟩
      | ok tok =>
        rw [htok] at h
        cases hraw : get_compliance_score_breakdown env.http_breakdown with
        | ok r =>
          rw [hraw] at h
          simp [Bind.bind, Except.bind, liftHTTP] at h
        | error he => exact .inr ⟨he, rfl⟩
    · rw [if_neg (by simpa [List.isEmpty_iff] using hs)] at h
      exact absurd h (by simp)
  · intro hne
    unfold fetchAssessments
    rw [if_neg (by simpa [List.isEmpty_iff] using hne)]
  · intro tok xs h htok hr
    unfold fetchAssessments
    rw [if_pos (by simpa [List.isEmpty_iff] using h)]
    simp [htok, Bind.bind, Except.bind, hr, liftHTTP]
  · intro e h
    unfold fetchAssessments at h
    by_cases hs : get_compliance_assessments_sdk env.sdk_assessments = []
    · rw [if_pos (by simpa [List.isEmpty_iff] using hs)] at h
      refine ⟨hs, ?_⟩
      cases htok : env.get_graph_token with
      | error et => exact .inl ⟨et, rfl⟩
      | ok tok =>
        rw [htok] at h
        cases hraw : get_compliance_assessments env.http_assessments_preferred
            env.http_assessments_alt with
        | ok r =>
          rw [hraw] at h
          simp [Bind.bind, Except.bind, liftHTTP] at h
        | error he => exact .inr ⟨he, rfl⟩
    · rw [if_neg (by simpa [List.isEmpty_iff] using hs)] at h
      exact absurd h (by simp)
  · intro hne
    unfold fetchControls
    rw [if_neg (by simpa [List.isEmpty_iff] using hne)]
  · intro tok xs h htok hr
    unfold fetchControls
    rw [if_pos (by simpa [List.isEmpty_iff] using h)]
    simp [htok, Bind.bind, Except.bind, hr, liftHTTP]
  · intro e h
    unfold fetchControls at h
    by_cases hs : get_assessment_controls_sdk (env.sdk_controls aid) = []
    · rw [if_pos (by simpa [List.isEmpty_iff] using hs)] at h
      refine ⟨hs, ?_⟩
      cases htok : env.get_graph_token with
      | error et => exact .inl ⟨et, rfl⟩
      | ok tok =>
        rw [htok] at h
        cases hraw : get_assessment_controls (env.http_controls_preferred aid)
            (env.http_controls_alt aid) with
        | ok r =>
          rw [hraw] at h
          simp [Bind.bind, Except.bind, liftHTTP] at h
        | error he => exact .inr ⟨he, rfl⟩
    · rw [if_neg (by simpa [List.isEmpty_iff] using hs)] at h
      exact absurd h (by simp)

/-- **C7** (witness): when the SDK endpoints come back empty and the raw
fallbacks return data, the fetches return the fallback's non-empty
results, not errors. -/
theorem C7_witness :
    fetchComplianceScore envPrimaryEmptyFallbackData
      = .ok (some [("currentScore", .num 80), ("maxScore", .num 100)]) ∧
    fetchAssessments envPrimaryEmptyFallbackData
      = .ok [[("id", .str "a1"), ("displayName", .str "SOC 2")]] := by
  constructor
  · exact (C7_fallback_policy envPrimaryEmptyFallbackData).1.2.1 "tok"
      (some [("currentScore", .num 80), ("maxScore", .num 100)])
      rfl rfl rfl
  · exact (C7_fallback_policy envPrimaryEmptyFallbackData).2.2.1.2.1 "tok"
      [[("id", .str "a1"), ("displayName", .str "SOC 2")]] rfl rfl rfl

theorem persistSnapshots_cons (db : Store) (tid : Val) (s : Dict)
    (rest : List Dict) :
    persistSnapshots db tid (s :: rest)
      = persistSnapshotStep tid db s >>= fun db' =>
          persistSnapshots db' tid rest := by
  simp [persistSnapshots, List.foldlM_cons]

theorem persistSnapshots_error_of_missing (tid : Val) :
    ∀ (scores : List Dict) (db : Store),
      (∃ s ∈ scores, s.get? "createdDateTime" = none) →
      ∃ e, persistSnapshots db tid scores = .error e := by
  intro scores
  induction scores with
  | nil =>
    rintro db ⟨s, hs, _⟩
    cases hs
  | cons s rest ih =>
    rintro db ⟨s0, hs0, hmiss⟩
    rcases List.mem_cons.mp hs0 with h | h
    · subst h
      refine ⟨"KeyError: 'createdDateTime'", ?_⟩
      rw [persistSnapshots_cons]
      simp [persistSnapshotStep, hmiss, Bind.bind, Except.bind]
    · rw [persistSnapshots_cons]
      cases hstep : persistSnapshotStep tid db s with
      | error e =>
        exact ⟨e, by simp [hstep, Bind.bind, Except.bind]⟩
      | ok db' =>
        obtain ⟨e, he⟩ := ih db' ⟨s0, h, hmiss⟩
        exact ⟨e, by simp [hstep, Bind.bind, Except.bind, he]⟩

/-- **C10** (implicit): the Secure Score persistence path is not total:
a snapshot dict lacking `createdDateTime` makes `upsert_secure_score`
raise `KeyError`, and the per-snapshot loop in `collect_tenant_data.main`
(which derives `score["createdDateTime"][:10]` itself) likewise raises,
so one such snapshot aborts that tenant's whole score-domain sync and the
activity returns the structured `success = False` failure payload instead
of skipping the snapshot as "no data". -/
theorem C10_missing_createdDateTime :
    (∀ (db : Store) (tid : Val) (score : Dict),
      score.get? "createdDateTime" = none →
      upsert_secure_score db tid score
        = .error "KeyError: 'createdDateTime'") ∧
    (∀ (tenant : Dict) (tid : Val) (env : ScoreEnv) (db : Store)
        (tok : String) (scores profiles : List Dict),
      tenant.get? "tenant_id" = some tid →
      env.get_graph_token = .ok tok →
      get_secure_scores env.secure_scores_pages 90 = .ok scores →
      get_control_profiles env.control_profiles_pages = .ok profiles →
      env.get_connection = .ok () →
      (∃ s ∈ scores, s.get? "createdDateTime" = none) →
      ∃ e, collect_tenant_data_main tenant env db
        = .ok (taskFailureDict tid e)) := by
  constructor
  · intro db tid score h
    unfold upsert_secure_score
    rw [h]
  · intro tenant tid env db tok scores profiles hten htok hscores hprof
      hconn hmiss
    obtain ⟨e, he⟩ := persistSnapshots_error_of_missing tid scores db hmiss
    refine ⟨e, ?_⟩
    unfold collect_tenant_data_main
    rw [hten]
    have hbody : collect_tenant_data_body tid env db = .error e := by
      unfold collect_tenant_data_body
      simp [htok, hscores, hprof, hconn, he, Bind.bind, Except.bind]
    simp [hbody]

/-- **C10** (witness): a run whose only snapshot lacks `createdDateTime`
raises in the upsert and ends in the structured failure payload. -/
theorem C10_witness :
    upsert_secure_score emptyStore (.str "t-a") [("currentScore", .num 50)]
      = .error "KeyError: 'createdDateTime'" ∧
    ∃ e, collect_tenant_data_main [("tenant_id", .str "t-a")]
      envSnapshotMissingDate emptyStore
        = .ok (taskFailureDict (.str "t-a") e) := by
  constructor
  · exact C10_missing_createdDateTime.1 emptyStore (.str "t-a")
      [("currentScore", .num 50)] rfl
  · exact C10_missing_createdDateTime.2 [("tenant_id", .str "t-a")]
      (.str "t-a") envSnapshotMissingDate emptyStore "tok"
      [[("currentScore", .num 50)]] [] rfl rfl rfl rfl rfl
      ⟨[("currentScore", .num 50)], by simp, rfl⟩

theorem collect_tenant_data_body_ok_shape {tid : Val} {env : ScoreEnv}
    {db st : Store} {d : Dict}
    (h : collect_tenant_data_body tid env db = .ok (st, d)) :
    ∃ n, d = scoreSuccessDict tid n := by
  unfold collect_tenant_data_body at h
  obtain ⟨_, _, h⟩ := exceptBind_ok h
  obtain ⟨scores, _, h⟩ := exceptBind_ok h
  obtain ⟨_, _, h⟩ := exceptBind_ok h
  obtain ⟨_, _, h⟩ := exceptBind_ok h
  obtain ⟨_, _, h⟩ := exceptBind_ok h
  obtain ⟨_, _, h⟩ := exceptBind_ok h
  simp only [Except.ok.injEq, Prod.mk.injEq] at h
  exact ⟨scores.length, h.2.symm⟩

theorem collect_compliance_data_body_ok_shape {tid : Val}
    {env : ComplianceEnv} {db st : Store} {d : Dict}
    (h : collect_compliance_data_body tid env db = .ok (st, d)) :
    ∃ cur a c g, d = complianceSuccessDict tid cur a c g := by
  unfold collect_compliance_data_body at h
  obtain ⟨_, _, h⟩ := exceptBind_ok h
  obtain ⟨score_data, _, h⟩ := exceptBind_ok h
  obtain ⟨categories, _, h⟩ := exceptBind_ok h
  obtain ⟨assessments, _, h⟩ := exceptBind_ok h
  obtain ⟨⟨cur, max_sc, cnt⟩, _, h⟩ := exceptBind_ok h
  obtain ⟨_, _, h⟩ := exceptBind_ok h
  obtain ⟨_, _, h⟩ := exceptBind_ok h
  obtain ⟨⟨db', ctrl⟩, _, h⟩ := exceptBind_ok h
  simp only [Except.ok.injEq, Prod.mk.injEq] at h
  exact ⟨cur, assessments.length, ctrl, categories.length, h.2.symm⟩

/-- **C4** (counterexample): the claim quantifies over every input tenant
record, but `tenant_id = tenant["tenant_id"]` is executed BEFORE the
`try:` block of both activities, so on a tenant record lacking the
`tenant_id` key the `KeyError` raised inside the activity body propagates
past the task boundary instead of being converted to a structured
failure dict. -/
theorem C4_counterexample :
    collect_tenant_data_main [] envSnapshotMissingDate emptyStore
      = .error "KeyError: 'tenant_id'" := by
  rfl

/-- **C4** (amended): for every input tenant record CONTAINING the
`tenant_id` key, and every exception raised inside the `try:` block of a
fan-out activity (`collect_tenant_data` or `collect_compliance_data`),
the activity never propagates the exception past the task boundary: it
returns the structured payload with the tenant_id, `success = false` and
an error message; and on the success path it returns the structured
payload with `success = true` and the domain-specific counts. -/
theorem C4_structured_results (tenant : Dict) (tid : Val)
    (envS : ScoreEnv) (envC : ComplianceEnv) (db : Store)
    (hten : tenant.get? "tenant_id" = some tid) :
    (∃ d, collect_tenant_data_main tenant envS db = .ok d ∧
      structuredScoreResult tid d) ∧
    (∃ d, collect_compliance_data_main tenant envC db = .ok d ∧
      structuredComplianceResult tid d) := by
  constructor
  · cases hbody : collect_tenant_data_body tid envS db with
    | ok p =>
      obtain ⟨st, d⟩ := p
      refine ⟨d, ?_, ?_⟩
      · unfold collect_tenant_data_main
        simp [hten, hbody]
      · exact .inl (collect_tenant_data_body_ok_shape hbody)
    | error e =>
      refine ⟨taskFailureDict tid e, ?_, .inr ⟨e, rfl⟩⟩
      unfold collect_tenant_data_main
      simp [hten, hbody]
  · cases hbody : collect_compliance_data_body tid envC db with
    | ok p =>
      obtain ⟨st, d⟩ := p
      refine ⟨d, ?_, ?_⟩
      · unfold collect_compliance_data_main
        simp [hten, hbody]
      · exact .inl (collect_compliance_data_body_ok_shape hbody)
    | error e =>
      refine ⟨taskFailureDict tid e, ?_, .inr ⟨e, rfl⟩⟩
      unfold collect_compliance_data_main
      simp [hten, hbody]

/-- **C4** (witness): on a tenant record with a `tenant_id` key, both
activities return a structured result dict even when their bodies raise
(here: a missing snapshot date on the score side, an SDK-client
construction failure on the compliance side — its env reuses the
fallback-raising compliance environment's shape). -/
theorem C4_witness :
    (∃ d, collect_tenant_data_main [("tenant_id", .str "t-a")]
        envSnapshotMissingDate emptyStore = .ok d ∧
      structuredScoreResult (.str "t-a") d) ∧
    (∃ d, collect_compliance_data_main [("tenant_id", .str "t-a")]
        envPrimaryEmptyFallbackRaises emptyStore = .ok d ∧
      structuredComplianceResult (.str "t-a") d) :=
  C4_structured_results [("tenant_id", .str "t-a")] (.str "t-a")
    envSnapshotMissingDate envPrimaryEmptyFallbackRaises emptyStore rfl

theorem fanout_tasks_cons (t : Dict) (rest : List Dict) :
    fanout_tasks (t :: rest)
      = ("collect_tenant_data", t) :: ("collect_compliance_data", t)
          :: fanout_tasks rest := by
  simp [fanout_tasks]

theorem tenantRowDict_tid_beq (t : TenantRow) (tid : String) :
    ((tenantRowDict t).get? "tenant_id" == some (Val.str tid))
      = (t.tenant_id == tid) := rfl

theorem tasksForActivity_fanout_tenant (tid : String) :
    ∀ ts : List TenantRow,
      tasksForActivity
        (fanout_tasks ((ts.filter (fun t => t.is_active)).map tenantRowDict))
        "collect_tenant_data" tid = countActiveTid ts tid := by
  intro ts
  induction ts with
  | nil => rfl
  | cons t rest ih =>
    simp only [tasksForActivity, countActiveTid, List.countP_cons] at ih ⊢
    by_cases ha : t.is_active = true
    · simp only [List.filter_cons, ha, if_true, List.map_cons,
        fanout_tasks_cons, List.countP_cons, tenantRowDict_tid_beq, ih]
      by_cases ht : t.tenant_id == tid <;> simp [ht, ha]
    · simp only [List.filter_cons, ha, if_false]
      simpa [Bool.and_eq_true, ha] using ih

theorem tasksForActivity_fanout_compliance (tid : String) :
    ∀ ts : List TenantRow,
      tasksForActivity
        (fanout_tasks ((ts.filter (fun t => t.is_active)).map tenantRowDict))
        "collect_compliance_data" tid = countActiveTid ts tid := by
  intro ts
  induction ts with
  | nil => rfl
  | cons t rest ih =>
    simp only [tasksForActivity, countActiveTid, List.countP_cons] at ih ⊢
    by_cases ha : t.is_active = true
    · simp only [List.filter_cons, ha, if_true, List.map_cons,
        fanout_tasks_cons, List.countP_cons, tenantRowDict_tid_beq, ih]
      by_cases ht : t.tenant_id == tid <;> simp [ht, ha]
    · simp only [List.filter_cons, ha, if_false]
      simpa [Bool.and_eq_true, ha] using ih

theorem tasksForTenant_fanout (tid : String) :
    ∀ ts : List TenantRow,
      tasksForTenant
        (fanout_tasks ((ts.filter (fun t => t.is_active)).map tenantRowDict))
        tid = 2 * countActiveTid ts tid := by
  intro ts
  induction ts with
  | nil => rfl
  | cons t rest ih =>
    simp only [tasksForTenant, countActiveTid, List.countP_cons] at ih ⊢
    by_cases ha : t.is_active = true
    · simp only [List.filter_cons, ha, if_true, List.map_cons,
        fanout_tasks_cons, List.countP_cons, tenantRowDict_tid_beq, ih]
      by_cases ht : t.tenant_id == tid <;> simp [ht, ha] <;> omega
    · simp only [List.filter_cons, ha, if_false]
      simpa [Bool.and_eq_true, ha] using ih

theorem countActiveTid_of_mem :
    ∀ ts : List TenantRow, (ts.map (fun t => t.tenant_id)).Nodup →
      ∀ row ∈ ts, countActiveTid ts row.tenant_id
        = if row.is_active then 1 else 0 := by
  intro ts
  induction ts with
  | nil =>
    intro _ row h
    cases h
  | cons t rest ih =>
    intro hnd row hrow
    obtain ⟨hhead, hnd'⟩ := List.nodup_cons.mp hnd
    rcases List.mem_cons.mp hrow with h | h
    · subst h
      have hzero : countActiveTid rest row.tenant_id = 0 := by
        rw [countActiveTid, List.countP_eq_zero]
        intro x hx hpx
        have hx2 : x.tenant_id = row.tenant_id :=
          eq_of_beq (Bool.and_elim_right hpx)
        exact hhead (List.mem_map.mpr ⟨x, hx, hx2⟩)
      rw [countActiveTid, List.countP_cons]
      rw [countActiveTid] at hzero
      rw [hzero]
      by_cases ha : row.is_active <;> simp [ha]
    · have hne : (t.tenant_id == row.tenant_id) = false := by
        rw [beq_eq_false_iff_ne]
        intro he
        exact hhead (List.mem_map.mpr ⟨row, h, he.symm⟩)
      have hr := ih hnd' row h
      rw [countActiveTid, List.countP_cons]
      rw [countActiveTid] at hr
      simp [hne, hr]

/-- **C3**: for every tenant with `is_active = true` in the registry
(assuming distinct registry tenant ids), the orchestrator's fan-out
schedules exactly one `collect_tenant_data` task and exactly one
`collect_compliance_data` task for it — exactly two tasks in total, so
the tenant appears exactly once in the task set — and no task at all is
scheduled for an inactive tenant. -/
theorem C3_fanout_exactly_two (db : Store)
    (hnd : (db.tenants.map (fun t => t.tenant_id)).Nodup) :
    ∀ row ∈ db.tenants,
      (row.is_active = true →
        tasksForActivity (fanout_tasks (get_active_tenants db))
          "collect_tenant_data" row.tenant_id = 1 ∧
        tasksForActivity (fanout_tasks (get_active_tenants db))
          "collect_compliance_data" row.tenant_id = 1 ∧
        tasksForTenant (fanout_tasks (get_active_tenants db))
          row.tenant_id = 2) ∧
      (row.is_active = false →
        tasksForTenant (fanout_tasks (get_active_tenants db))
          row.tenant_id = 0) := by
  intro row hrow
  have hcount := countActiveTid_of_mem db.tenants hnd row hrow
  constructor
  · intro ha
    rw [ha, if_pos rfl] at hcount
    refine ⟨?_, ?_, ?_⟩
    · rw [get_active_tenants, tasksForActivity_fanout_tenant, hcount]
    · rw [get_active_tenants, tasksForActivity_fanout_compliance, hcount]
    · rw [get_active_tenants, tasksForTenant_fanout, hcount]
  · intro ha
    rw [ha] at hcount
    simp only [Bool.false_eq_true, if_false] at hcount
    rw [get_active_tenants, tasksForTenant_fanout, hcount]

/-- **C3** (witness): on a registry holding active tenant `t-a` and
inactive tenant `t-b`, the fan-out schedules exactly one task per domain
for `t-a` (two in total) and none for `t-b`. -/
theorem C3_witness :
    (tasksForActivity (fanout_tasks (get_active_tenants sampleStore))
        "collect_tenant_data" "t-a" = 1 ∧
      tasksForActivity (fanout_tasks (get_active_tenants sampleStore))
        "collect_compliance_data" "t-a" = 1 ∧
      tasksForTenant (fanout_tasks (get_active_tenants sampleStore))
        "t-a" = 2) ∧
    tasksForTenant (fanout_tasks (get_active_tenants sampleStore))
      "t-b" = 0 := by
  constructor
  · exact (C3_fanout_exactly_two sampleStore (by decide)
      (sampleRegistry.get ⟨0, by decide⟩) (by decide)).1 rfl
  · exact (C3_fanout_exactly_two sampleStore (by decide)
      (sampleRegistry.get ⟨1, by decide⟩) (by decide)).2 rfl

/-- **C2**: in every orchestration run — for every registry content,
every completion order of the fan-out tasks, and every assignment of
task results (including results reporting `success = false`) — the
reindex activity call is the last event of the trace and occurs exactly
once, and every scheduled fan-out task has its completion event strictly
before it; so the reindex is never invoked before all tasks are terminal
and is invoked unconditionally once they are. -/
theorem C2_join_barrier_then_reindex (tenants : List Dict)
    (results : String × Dict → Dict)
    (completionOrder : List (String × Dict))
    (hperm : completionOrder.Perm (fanout_tasks tenants)) :
    (orchestrator_trace tenants results completionOrder).getLast?
      = some .callReindex ∧
    (orchestrator_trace tenants results completionOrder).count
      OrchEvent.callReindex = 1 ∧
    ∀ nt ∈ fanout_tasks tenants,
      OrchEvent.taskCompleted nt.1 nt.2 (results nt)
        ∈ (orchestrator_trace tenants results completionOrder).dropLast := by
  have hshape : orchestrator_trace tenants results completionOrder
      = (OrchEvent.callGetActiveTenants ::
          ((fanout_tasks tenants).map (fun nt => .scheduleTask nt.1 nt.2)
          ++ completionOrder.map
              (fun nt => .taskCompleted nt.1 nt.2 (results nt))))
        ++ [OrchEvent.callReindex] := by
    simp [orchestrator_trace]
  refine ⟨?_, ?_, ?_⟩
  · rw [hshape, List.getLast?_concat]
  · rw [hshape, List.count_append]
    have h1 : (OrchEvent.callGetActiveTenants ::
        ((fanout_tasks tenants).map (fun nt => .scheduleTask nt.1 nt.2)
        ++ completionOrder.map
            (fun nt => .taskCompleted nt.1 nt.2 (results nt)))).count
          OrchEvent.callReindex = 0 := by
      rw [List.count_eq_zero]
      intro hmem
      rcases List.mem_cons.mp hmem with h | h
      · cases h
      · rcases List.mem_append.mp h with h | h <;>
          · rcases List.mem_map.mp h with ⟨nt, _, he⟩
            cases he
    rw [h1]
    rfl
  · intro nt hnt
    rw [hshape, List.dropLast_concat]
    have : nt ∈ completionOrder := hperm.mem_iff.mpr hnt
    exact List.mem_cons_of_mem _
      (List.mem_append_right _ (List.mem_map.mpr ⟨nt, this, rfl⟩))

/-- **C2** (witness): a run over two tenants where one task reports
`success = false`: the reindex call is still last, occurs once, and every
task's completion precedes it. -/
theorem C2_witness :
    (orchestrator_trace
        [[("tenant_id", Val.str "t-a")], [("tenant_id", Val.str "t-b")]]
        (fun nt => if nt.1 == "collect_compliance_data"
          then taskFailureDict (pyGet nt.2 "tenant_id") "auth expired"
          else scoreSuccessDict (pyGet nt.2 "tenant_id") 3)
        (fanout_tasks
          [[("tenant_id", Val.str "t-a")], [("tenant_id", Val.str "t-b")]])).getLast?
      = some .callReindex ∧
    OrchEvent.taskCompleted "collect_compliance_data"
        [("tenant_id", Val.str "t-a")]
        (taskFailureDict (Val.str "t-a") "auth expired")
      ∈ (orchestrator_trace
        [[("tenant_id", Val.str "t-a")], [("tenant_id", Val.str "t-b")]]
        (fun nt => if nt.1 == "collect_compliance_data"
          then taskFailureDict (pyGet nt.2 "tenant_id") "auth expired"
          else scoreSuccessDict (pyGet nt.2 "tenant_id") 3)
        (fanout_tasks
          [[("tenant_id", Val.str "t-a")], [("tenant_id", Val.str "t-b")]])).dropLast := by
  have h := C2_join_barrier_then_reindex
    [[("tenant_id", Val.str "t-a")], [("tenant_id", Val.str "t-b")]]
    (fun nt => if nt.1 == "collect_compliance_data"
      then taskFailureDict (pyGet nt.2 "tenant_id") "auth expired"
      else scoreSuccessDict (pyGet nt.2 "tenant_id") 3)
    (fanout_tasks
      [[("tenant_id", Val.str "t-a")], [("tenant_id", Val.str "t-b")]])
    (List.Perm.refl _)
  refine ⟨h.1, ?_⟩
  have hm := h.2.2 ("collect_compliance_data", [("tenant_id", Val.str "t-a")])
    (by decide)
  simpa using hm

theorem all_replicate_eq {α : Type} (p : α → Bool) (n : Nat) (x : α) :
    (List.replicate n x).all p = (n == 0 || p x) := by
  induction n with
  | zero => rfl
  | succ m ih =>
    simp [List.replicate_succ, ih]
    tauto

theorem all_flatten_eq {α : Type} (p : α → Bool) (L : List (List α)) :
    L.flatten.all p = L.all (fun l => l.all p) := by
  induction L with
  | nil => rfl
  | cons l ls ih => simp [List.all_append, ih]

theorem all_flatMap_eq {α β : Type} (p : β → Bool) (f : α → List β)
    (l : List α) : (l.flatMap f).all p = l.all (fun a => (f a).all p) := by
  induction l with
  | nil => rfl
  | cons a as ih => simp [List.flatMap_cons, List.all_append, ih]

theorem all_ite_nil {α : Type} (p : α → Bool) (c : Bool) (l : List α) :
    (if c = true then l else []).all p = (!c || l.all p) := by
  cases c <;> simp

/-- **C1**: (i) on every store connection the repository opens — the two
fan-out activities, the registry-load and reindex activities, the
admin-scoped query helpers (http_api handlers, digest/briefing helpers,
weekly-digest flow nodes) and the spreadsheet ingest — the security scope
is set exactly once, by exactly one of `set_tenant_context` /
`set_admin_context`, as the very first statement after opening and before
any other statement; and (ii) once a scope is set (its SESSION_CONTEXT
keys stored with `@read_only = 1`), any further scope-setting call on the
same connection is rejected with an error and the effective scope is
neither changed nor escalated. -/
theorem C1_scope_set_once_immutable :
    ((∀ (tid : Val) (snapshots : List (Nat × Nat)) (profileCount : Nat),
        scopeDiscipline
          (collect_tenant_data_conn_trace tid snapshots profileCount)
          = true) ∧
     (∀ (tid : Val) (ow : Bool) (cc : Nat) (pa : List (Bool × Nat)),
        scopeDiscipline
          (collect_compliance_data_conn_trace tid ow cc pa) = true) ∧
     scopeDiscipline get_active_tenants_conn_trace = true ∧
     scopeDiscipline reindex_search_conn_trace = true ∧
     (∀ queries, scopeDiscipline (admin_query_conn_trace queries) = true) ∧
     (∀ (tid : Val) (rows : Nat),
        scopeDiscipline (cm_parser_conn_trace tid rows) = true)) ∧
    ((∀ tid : Val, effectiveScope (tenantScopedSession tid) = .tenant tid) ∧
     effectiveScope adminScopedSession = .admin ∧
     (∀ tid tid2 : Val,
        (∃ e, (set_tenant_context_run (tenantScopedSession tid) tid2).2
          = .error e) ∧
        effectiveScope (set_tenant_context_run (tenantScopedSession tid)
          tid2).1 = .tenant tid) ∧
     (∀ tid : Val,
        (∃ e, (set_admin_context_run (tenantScopedSession tid)).2
          = .error e) ∧
        effectiveScope (set_admin_context_run (tenantScopedSession tid)).1
          = .tenant tid) ∧
     (∀ tid2 : Val,
        (∃ e, (set_tenant_context_run adminScopedSession tid2).2
          = .error e) ∧
        effectiveScope (set_tenant_context_run adminScopedSession tid2).1
          = .admin) ∧
     ((∃ e, (set_admin_context_run adminScopedSession).2 = .error e) ∧
      effectiveScope (set_admin_context_run adminScopedSession).1
        = .admin)) := by
  constructor
  · refine ⟨?_, ?_, rfl, rfl, ?_, ?_⟩
    · intro tid snapshots profileCount
      simp [collect_tenant_data_conn_trace, scopeDiscipline,
        ConnOp.isScopeSet, List.all_append, all_flatMap_eq,
        all_replicate_eq, all_flatten_eq]
    · intro tid ow cc pa
      simp [collect_compliance_data_conn_trace, scopeDiscipline,
        ConnOp.isScopeSet, List.all_append, all_flatMap_eq,
        all_replicate_eq, all_flatten_eq, all_ite_nil]
    · intro queries
      simp [admin_query_conn_trace, scopeDiscipline, ConnOp.isScopeSet,
        List.all_eq_true]
    · intro tid rows
      simp [cm_parser_conn_trace, scopeDiscipline, ConnOp.isScopeSet,
        List.all_append, all_replicate_eq]
  · refine ⟨fun tid => rfl, rfl, fun tid tid2 => ⟨⟨_, rfl⟩, rfl⟩,
      fun tid => ⟨⟨_, rfl⟩, rfl⟩, fun tid2 => ⟨⟨_, rfl⟩, rfl⟩,
      ⟨_, rfl⟩, rfl⟩

/-- **C5** (code bug): the spec's Credential Provider contract exposes
`get_client` alongside `get_token`, and `collect_compliance_data.py`
imports `get_graph_client` from `shared.auth` (as does
`tests/shared/test_auth.py::test_get_graph_client_returns_client`), but
`shared/auth.py` defines no such name, so the import raises
`ImportError` at module load. -/
theorem C5_get_graph_client_missing :
    "get_graph_client" ∈ compliance_activity_auth_imports ∧
    "get_graph_client" ∉ auth_module_names ∧
    "get_graph_token" ∈ auth_module_names := by
  decide

end ComplianceAdvisor
